import Mathlib

/- Verification of the document-classification core of this repository:
   the deterministic detector bank (src/app/detectors.py), citation
   deduplication, the deterministic fallback ladder, the dual-LLM
   reconciliation logic and the prompt-flow orchestration loop
   (src/app/orchestrator.py).

   Modelling conventions:
   * Python floats are modelled as exact rationals.
   * JSON-like values exchanged with the LLM transports are modelled by
     the inductive type JVal; the transports themselves are oracles
     (arbitrary functions supplied as parameters).  Each flow node makes
     at most one transport call, so the oracle is keyed by node id.
   * Python exceptions escaping a function are modelled with Except. -/

/-- JSON-like runtime value (Python dict / list / str / float / bool / None).
Python None and JSON null are identified (json.loads maps null to None). -/
inductive JVal where
  | null : JVal
  | bool : Bool → JVal
  | num : ℚ → JVal
  | str : String → JVal
  | arr : List JVal → JVal
  | obj : List (String × JVal) → JVal

/-- Association lookup on an object's fields (Python dict.get: first — and in
a Python dict only — binding of the key). -/
def jlookup : List (String × JVal) → String → Option JVal
  | [], _ => none
  | (k, v) :: rest, key => if k = key then some v else jlookup rest key

/-- Python dict assignment d[k] = v: overwrite in place, else append. -/
def dictSet (kvs : List (String × JVal)) (key : String) (v : JVal) :
    List (String × JVal) :=
  if (jlookup kvs key).isSome then
    kvs.map (fun kv => if kv.1 = key then (key, v) else kv)
  else kvs ++ [(key, v)]

/-- Python truthiness of a JSON-like value. -/
def pyTruthy : JVal → Bool
  | .null => false
  | .bool b => b
  | .num q => decide (q ≠ 0)
  | .str s => !s.isEmpty
  | .arr xs => !xs.isEmpty
  | .obj kvs => !kvs.isEmpty

mutual
/-- Python == on JSON-like values.  Bools compare equal to 0/1 as in Python;
dict comparison is modelled field-ordered, adequate for the scalar
comparisons the orchestrator performs. -/
def jeq : JVal → JVal → Bool
  | .null, .null => true
  | .bool a, .bool b => a == b
  | .bool a, .num q => decide ((if a then (1 : ℚ) else 0) = q)
  | .num q, .bool a => decide (q = (if a then (1 : ℚ) else 0))
  | .num a, .num b => decide (a = b)
  | .str a, .str b => a == b
  | .arr a, .arr b => jeqList a b
  | .obj a, .obj b => jeqObj a b
  | _, _ => false

def jeqList : List JVal → List JVal → Bool
  | [], [] => true
  | a :: as, b :: bs => jeq a b && jeqList as bs
  | _, _ => false

def jeqObj : List (String × JVal) → List (String × JVal) → Bool
  | [], [] => true
  | (k1, v1) :: as, (k2, v2) :: bs => k1 == k2 && jeq v1 v2 && jeqObj as bs
  | _, _ => false
end

/-- ASCII word character, the regex class used by the detector patterns. -/
def isWordChar (c : Char) : Bool := c.isAlphanum || c == '_'

/-- Whether the SSN regexp from src/app/detectors.py (three digits, dash, two
digits, dash, four digits, word boundaries on both sides) matches starting
exactly at the head of l, with prev the character just before the position. -/
def ssnAt (prev : Option Char) : List Char → Bool
  | a :: b :: c :: '-' :: d :: e :: '-' :: f :: g :: h :: i :: rest =>
      (prev.all fun p => !isWordChar p) &&
      a.isDigit && b.isDigit && c.isDigit && d.isDigit && e.isDigit &&
      f.isDigit && g.isDigit && h.isDigit && i.isDigit &&
      (match rest with | [] => true | r :: _ => !isWordChar r)
  | _ => false

def ssnSearchAux : Option Char → List Char → Bool
  | prev, [] => ssnAt prev []
  | prev, c :: rest => ssnAt prev (c :: rest) || ssnSearchAux (some c) rest

/-- SSN_PATTERN.search(text) from src/app/detectors.py. -/
def ssnSearch (s : String) : Bool := ssnSearchAux none s.toList

/-- Whether the word-bounded keyword kw matches starting at the head of l
(the detector bank wraps each keyword as a regex with word boundaries). -/
def kwAt (kw : List Char) (prev : Option Char) (l : List Char) : Bool :=
  l.take kw.length == kw &&
  (match kw.head? with
   | none => true
   | some c0 => (prev.any fun p => isWordChar p) != isWordChar c0) &&
  (match kw.getLast? with
   | none => true
   | some cL =>
       isWordChar cL != (match l.drop kw.length with
                         | [] => false
                         | r :: _ => isWordChar r))

def kwSearchAux (kw : List Char) : Option Char → List Char → Bool
  | prev, [] => kwAt kw prev []
  | prev, c :: rest => kwAt kw prev (c :: rest) || kwSearchAux kw (some c) rest

/-- Word-boundary-anchored keyword search, as compiled in run_detectors. -/
def kwSearch (kw : String) (s : String) : Bool := kwSearchAux kw.toList none s.toList

/-- ASCII lower-casing (Python str.lower; non-ASCII case folding not
modelled, the detector keyword lists are ASCII). -/
def pyLower (s : String) : String := s.map Char.toLower

/-- The Citation record of src/app/models.py. -/
structure Citation where
  page : Option Int := none
  snippet : String
  image_index : Option Int := none
  region : Option String := none
  source : Option String := none
deriving DecidableEq

/-- The DetectorSignals record of src/app/models.py. -/
structure DetectorSignals where
  has_pii : Bool := false
  pii_hits : List Citation := []
  has_unsafe_pattern : Bool := false
  unsafe_hits : List Citation := []
  has_internal_markers : Bool := false
  notes : List String := []
deriving DecidableEq

def INTERNAL_MARKERS : List String :=
  ["internal use only", "do not distribute", "confidential", "non-disclosure",
   "nda", "for internal dicussion", "company confidential", "proprietary"]

def UNSAFE_KEYWORDS : List String :=
  ["child sexual", "exploit", "molest", "kill them all", "how to make a bomb",
   "join isis"]

/-- text[:200].replace of newlines by spaces, as in run_detectors. -/
def pageSnippet (t : String) : String :=
  (t.take 200).map (fun c => if c = '\n' then ' ' else c)

/-- One iteration of the page loop of run_detectors (src/app/detectors.py).
The permissive credit-card pattern is supplied as an oracle predicate cc;
the SSN pattern and the keyword scans are modelled concretely. -/
def detect_page (cc : String → Bool) (s : DetectorSignals) (page : Int)
    (text : String) : DetectorSignals :=
  let lower := pyLower text
  let s :=
    if ssnSearch text || cc text then
      { s with has_pii := true,
               pii_hits := s.pii_hits ++
                 [{ page := some page, snippet := pageSnippet text,
                    source := some "detector_pii" }] }
    else s
  let s :=
    if INTERNAL_MARKERS.any fun w => kwSearch w lower then
      { s with has_internal_markers := true,
               notes := s.notes ++ ["Internal marker on page " ++ toString page] }
    else s
  if UNSAFE_KEYWORDS.any fun w => kwSearch w lower then
    { s with has_unsafe_pattern := true,
             unsafe_hits := s.unsafe_hits ++
               [{ page := some page, snippet := pageSnippet text,
                  source := some "detector_unsafe" }] }
  else s

/-- run_detectors from src/app/detectors.py; pages is the page-number → text
mapping in iteration order. -/
def run_detectors (cc : String → Bool) (pages : List (Int × String)) :
    DetectorSignals :=
  pages.foldl (fun s pt => detect_page cc s pt.1 pt.2) {}

/-- The deduplication key of _dedupe_citations (src/app/orchestrator.py). -/
def citeKey (c : Citation) : Option Int × Option Int × String × String × String :=
  (c.page, c.image_index, (c.region.getD "").trim, c.source.getD "",
   c.snippet.trim.take 120)

def dedupeGo (seen : List (Option Int × Option Int × String × String × String)) :
    List Citation → List Citation
  | [] => []
  | c :: rest =>
      if citeKey c ∈ seen then dedupeGo seen rest
      else c :: dedupeGo (citeKey c :: seen) rest

/-- _dedupe_citations from src/app/orchestrator.py. -/
def dedupe_citations (l : List Citation) : List Citation := dedupeGo [] l

/-- _fallback_decision from src/app/orchestrator.py: returns (category,
tags, confidence, citations, explanation). -/
def fallback_decision (signals : DetectorSignals) :
    String × List String × ℚ × List Citation × String :=
  let cte :=
    if signals.has_unsafe_pattern then
      ("Unsafe", ["Safety-Risk"], "Unsafe keywords detected.")
    else if signals.has_pii then
      ("Highly Sensitive", ["PII"], "PII patterns detected.")
    else if signals.has_internal_markers then
      ("Confidential", ["Internal"], "Internal markers detected.")
    else
      ("Public", [], "No sensitive markers found.")
  let citations :=
    (if signals.pii_hits.isEmpty then signals.unsafe_hits else signals.pii_hits).take 3
  (cte.1, cte.2.1, 7/10, citations, cte.2.2)

/-- The severity table of _resolve_category_conflict; priority.get(cat, 0)
on a JSON value (unhashable values, which would raise, are not modelled). -/
def priority : JVal → ℕ
  | .str "Unsafe" => 4
  | .str "Highly Sensitive" => 3
  | .str "Confidential" => 2
  | .str "Public" => 1
  | _ => 0

/-- _resolve_category_conflict from src/app/orchestrator.py.  A missing
secondary category (Python None) is the JVal.null argument. -/
def resolve_category_conflict (cat1 cat2 : JVal) : JVal :=
  if !pyTruthy cat2 then cat1
  else if priority cat2 ≤ priority cat1 then cat1 else cat2

def validCats : List String := ["Public", "Confidential", "Highly Sensitive", "Unsafe"]

/-- C1: for the four enum categories, _resolve_category_conflict selects the
more severe category under Unsafe(4) > Highly Sensitive(3) > Confidential(2)
> Public(1), ties going to the primary; and the three documented examples
hold, including a null secondary returning the primary unchanged. -/
theorem resolve_category_conflict_severity (c1 c2 : String)
    (h1 : c1 ∈ validCats) (h2 : c2 ∈ validCats) :
    resolve_category_conflict (.str c1) (.str c2) =
      .str (if priority (.str c1) < priority (.str c2) then c2 else c1) ∧
    resolve_category_conflict (.str "Confidential") (.str "Unsafe") = .str "Unsafe" ∧
    resolve_category_conflict (.str "Unsafe") (.str "Public") = .str "Unsafe" ∧
    resolve_category_conflict (.str "Public") .null = .str "Public" := by
  refine ⟨?_, rfl, rfl, rfl⟩
  simp only [validCats, List.mem_cons, List.not_mem_nil, or_false] at h1 h2
  rcases h1 with rfl | rfl | rfl | rfl <;> rcases h2 with rfl | rfl | rfl | rfl <;> rfl

theorem resolve_category_conflict_severity_witness :
    resolve_category_conflict (.str "Confidential") (.str "Unsafe") =
      .str (if priority (.str "Confidential") < priority (.str "Unsafe")
            then "Unsafe" else "Confidential") ∧
    resolve_category_conflict (.str "Confidential") (.str "Unsafe") = .str "Unsafe" ∧
    resolve_category_conflict (.str "Unsafe") (.str "Public") = .str "Unsafe" ∧
    resolve_category_conflict (.str "Public") .null = .str "Public" :=
  resolve_category_conflict_severity "Confidential" "Unsafe"
    (by simp [validCats]) (by simp [validCats])

/-- C2: the deterministic fallback ladder matches in severity order
(unsafe, then PII, then internal markers, then public), always with
confidence 0.7, and cites the first three piiHits if any, else the first
three unsafeHits. -/
theorem fallback_decision_spec (s : DetectorSignals) :
    fallback_decision s =
      (if s.has_unsafe_pattern then "Unsafe"
       else if s.has_pii then "Highly Sensitive"
       else if s.has_internal_markers then "Confidential" else "Public",
       if s.has_unsafe_pattern then ["Safety-Risk"]
       else if s.has_pii then ["PII"]
       else if s.has_internal_markers then ["Internal"] else [],
       7/10,
       (if s.pii_hits.isEmpty then s.unsafe_hits else s.pii_hits).take 3,
       if s.has_unsafe_pattern then "Unsafe keywords detected."
       else if s.has_pii then "PII patterns detected."
       else if s.has_internal_markers then "Internal markers detected."
       else "No sensitive markers found.") := by
  obtain ⟨hp, ph, hu, uh, hm, n⟩ := s
  cases hu <;> cases hp <;> cases hm <;> rfl

theorem dedupeGo_sublist (seen : List (Option Int × Option Int × String × String × String)) :
    ∀ l : List Citation, (dedupeGo seen l).Sublist l := by
  intro l
  induction l generalizing seen with
  | nil => simp [dedupeGo]
  | cons c rest ih =>
    unfold dedupeGo
    by_cases h : citeKey c ∈ seen
    · simp only [h, if_true]
      exact (ih seen).cons c
    · simp only [h, if_false]
      exact (ih (citeKey c :: seen)).cons₂ c

theorem dedupeGo_notseen (seen : List (Option Int × Option Int × String × String × String))
    (l : List Citation) : ∀ c ∈ dedupeGo seen l, citeKey c ∉ seen := by
  induction l generalizing seen with
  | nil => simp [dedupeGo]
  | cons c rest ih =>
    intro d hd
    unfold dedupeGo at hd
    by_cases h : citeKey c ∈ seen
    · simp only [h, if_true] at hd
      exact ih seen d hd
    · simp only [h, if_false, List.mem_cons] at hd
      rcases hd with rfl | hd
      · exact h
      · have := ih (citeKey c :: seen) d hd
        exact fun hmem => this (List.mem_cons_of_mem _ hmem)

theorem dedupeGo_pairwise (seen : List (Option Int × Option Int × String × String × String))
    (l : List Citation) :
    (dedupeGo seen l).Pairwise (fun a b => citeKey a ≠ citeKey b) := by
  induction l generalizing seen with
  | nil => simp [dedupeGo]
  | cons c rest ih =>
    unfold dedupeGo
    by_cases h : citeKey c ∈ seen
    · simp only [h, if_true]; exact ih seen
    · simp only [h, if_false]
      refine List.Pairwise.cons ?_ (ih (citeKey c :: seen))
      intro d hd
      have := dedupeGo_notseen (citeKey c :: seen) rest d hd
      intro hk
      exact this (hk ▸ List.mem_cons_self _ _)

theorem dedupeGo_fixed (seen : List (Option Int × Option Int × String × String × String)) :
    ∀ l : List Citation, (∀ c ∈ l, citeKey c ∉ seen) →
      l.Pairwise (fun a b => citeKey a ≠ citeKey b) → dedupeGo seen l = l := by
  intro l
  induction l generalizing seen with
  | nil => intro _ _; rfl
  | cons c rest ih =>
    intro hseen hpw
    unfold dedupeGo
    have hc : citeKey c ∉ seen := hseen c (List.mem_cons_self _ _)
    simp only [hc, if_false]
    have hrest : ∀ d ∈ rest, citeKey d ∉ citeKey c :: seen := by
      intro d hd hmem
      rcases List.mem_cons.mp hmem with heq | hmem'
      · exact (List.pairwise_cons.mp hpw).1 d hd heq.symm
      · exact hseen d (List.mem_cons_of_mem _ hd) hmem'
    rw [ih (citeKey c :: seen) hrest (List.pairwise_cons.mp hpw).2]

theorem dedupeGo_find (seen : List (Option Int × Option Int × String × String × String))
    (k : Option Int × Option Int × String × String × String) (hk : k ∉ seen) :
    ∀ l : List Citation,
      (dedupeGo seen l).find? (fun d => decide (citeKey d = k)) =
        l.find? (fun d => decide (citeKey d = k)) := by
  intro l
  induction l generalizing seen with
  | nil => rfl
  | cons c rest ih =>
    unfold dedupeGo
    by_cases h : citeKey c ∈ seen
    · have hne : citeKey c ≠ k := fun he => hk (he ▸ h)
      simp only [h, if_true]
      rw [ih seen hk]
      rw [List.find?_cons_of_neg _ (by simpa using hne)]
    · simp only [h, if_false]
      by_cases hck : citeKey c = k
      · rw [List.find?_cons_of_pos _ (by simpa using hck),
            List.find?_cons_of_pos _ (by simpa using hck)]
      · rw [List.find?_cons_of_neg _ (by simpa using hck),
            List.find?_cons_of_neg _ (by simpa using hck)]
        refine ih (citeKey c :: seen) ?_
        intro hmem
        rcases List.mem_cons.mp hmem with heq | hmem'
        · exact hck heq.symm
        · exact hk hmem'

/-- C8: citation deduplication is idempotent, its output never contains two
entries with the same dedup key (page, imageIndex, region, source, first
120 characters of the stripped snippet), and, for every key, the first
entry with that key in the output is the first entry with that key in the
input, in the original order (the output is a sublist of the input). -/
theorem dedupe_citations_spec (l : List Citation) :
    dedupe_citations (dedupe_citations l) = dedupe_citations l ∧
    (dedupe_citations l).Pairwise (fun a b => citeKey a ≠ citeKey b) ∧
    (dedupe_citations l).Sublist l ∧
    ∀ k, (dedupe_citations l).find? (fun d => decide (citeKey d = k)) =
      l.find? (fun d => decide (citeKey d = k)) := by
  refine ⟨?_, dedupeGo_pairwise [] l, dedupeGo_sublist [] l, ?_⟩
  · exact dedupeGo_fixed [] (dedupeGo [] l) (by simp)
      (dedupeGo_pairwise [] l)
  · intro k
    exact dedupeGo_find [] k (by simp) l

theorem detect_page_haspii_mono (cc : String → Bool) (s : DetectorSignals)
    (p : Int) (t : String) (h : s.has_pii = true) :
    (detect_page cc s p t).has_pii = true := by
  unfold detect_page
  dsimp only
  split_ifs <;> simp [h]

theorem detect_page_piihits_mono (cc : String → Bool) (s : DetectorSignals)
    (p : Int) (t : String) (c : Citation) (h : c ∈ s.pii_hits) :
    c ∈ (detect_page cc s p t).pii_hits := by
  unfold detect_page
  dsimp only
  split_ifs <;> simp [h]

theorem detect_page_ssn (cc : String → Bool) (s : DetectorSignals)
    (p : Int) (t : String) (h : ssnSearch t = true) :
    (detect_page cc s p t).has_pii = true ∧
    ({ page := some p, snippet := pageSnippet t,
       source := some "detector_pii" } : Citation) ∈ (detect_page cc s p t).pii_hits := by
  unfold detect_page
  simp only [h, Bool.true_or, if_true]
  split_ifs <;> simp

theorem foldl_detect_preserve (cc : String → Bool) (l : List (Int × String))
    (acc : DetectorSignals) (c : Citation)
    (h1 : acc.has_pii = true) (h2 : c ∈ acc.pii_hits) :
    (l.foldl (fun s pt => detect_page cc s pt.1 pt.2) acc).has_pii = true ∧
    c ∈ (l.foldl (fun s pt => detect_page cc s pt.1 pt.2) acc).pii_hits := by
  induction l generalizing acc with
  | nil => exact ⟨h1, h2⟩
  | cons hd tl ih =>
    exact ih (detect_page cc acc hd.1 hd.2)
      (detect_page_haspii_mono cc acc hd.1 hd.2 h1)
      (detect_page_piihits_mono cc acc hd.1 hd.2 c h2)

theorem foldl_detect_ssn (cc : String → Bool) (l : List (Int × String))
    (p : Int) (t : String) (hmem : (p, t) ∈ l) (hssn : ssnSearch t = true) :
    ∀ acc : DetectorSignals,
      (l.foldl (fun s pt => detect_page cc s pt.1 pt.2) acc).has_pii = true ∧
      ({ page := some p, snippet := pageSnippet t,
         source := some "detector_pii" } : Citation)
        ∈ (l.foldl (fun s pt => detect_page cc s pt.1 pt.2) acc).pii_hits := by
  induction l with
  | nil => cases hmem
  | cons hd tl ih =>
    intro acc
    rcases List.mem_cons.mp hmem with heq | hmem'
    · subst heq
      simp only [List.foldl_cons]
      have htrig := detect_page_ssn cc acc p t hssn
      exact foldl_detect_preserve cc tl (detect_page cc acc p t) _ htrig.1 htrig.2
    · simp only [List.foldl_cons]
      exact ih hmem' (detect_page cc acc hd.1 hd.2)

/-- C9: if some page's text matches the SSN pattern, run_detectors reports
hasPii and a piiHits citation for that page with source detector_pii whose
snippet is the first 200 characters of the page with newlines replaced by
spaces.  The permissive credit-card pattern is an arbitrary oracle cc. -/
theorem run_detectors_ssn (cc : String → Bool) (pages : List (Int × String))
    (p : Int) (t : String) (hmem : (p, t) ∈ pages) (hssn : ssnSearch t = true) :
    (run_detectors cc pages).has_pii = true ∧
    ∃ c ∈ (run_detectors cc pages).pii_hits,
      c.page = some p ∧ c.source = some "detector_pii" ∧
      c.snippet = pageSnippet t := by
  have h := foldl_detect_ssn cc pages p t hmem hssn {}
  exact ⟨h.1, ⟨_, h.2, rfl, rfl, rfl⟩⟩

theorem run_detectors_ssn_witness :
    (run_detectors (fun _ => false) [(1, "SSN: 123-45-6789")]).has_pii = true ∧
    ∃ c ∈ (run_detectors (fun _ => false) [(1, "SSN: 123-45-6789")]).pii_hits,
      c.page = some 1 ∧ c.source = some "detector_pii" ∧
      c.snippet = pageSnippet "SSN: 123-45-6789" :=
  run_detectors_ssn (fun _ => false) [(1, "SSN: 123-45-6789")] 1 "SSN: 123-45-6789"
    (by simp) (by rfl)

/-- The prompt_tree_result dictionary built by classify_document; every key
is always present, so it is modelled as a structure. -/
structure PromptTree where
  final_category : JVal
  secondary_tags : JVal
  confidence : ℚ
  citations : List Citation
  explanation : JVal
  source : String

/-- Python str() as used in the f-string disagreement notes; rendering of
numbers and containers is approximated (the orchestrator only ever formats
category values, which are strings). -/
def pyStr : JVal → String
  | .str s => s
  | .null => "None"
  | .bool b => if b then "True" else "False"
  | .num q => toString q
  | .arr _ => "<list>"
  | .obj _ => "<dict>"

def roundHalfEven (q : ℚ) : ℤ :=
  let f := ⌊q⌋
  let r := q - f
  if r < 1/2 then f else if 1/2 < r then f + 1 else if f % 2 = 0 then f else f + 1

/-- Python format spec .2f applied to the (nonnegative) confidence gap. -/
def fmt2 (q : ℚ) : String :=
  let n := roundHalfEven (q * 100)
  let ip := n / 100
  let fp := (n % 100).toNat
  toString ip ++ "." ++ (if fp < 10 then "0" else "") ++ toString fp

/-- Numeric coercion as performed by Python arithmetic and comparisons:
numbers and bools participate, anything else raises TypeError. -/
def asNum : JVal → Except String ℚ
  | .num q => .ok q
  | .bool b => .ok (if b then 1 else 0)
  | _ => .error "TypeError"

/-- _compute_llm_agreement from src/app/orchestrator.py.  Raises (Except)
when the secondary confidence is neither numeric nor boolean, exactly as
the Python subtraction would. -/
def compute_llm_agreement (pt : PromptTree) (gem : List (String × JVal)) :
    Except String (ℚ × List String) :=
  if (jlookup gem "error").isSome then .ok (0, ["gemini_error"])
  else
    let gemCat := (jlookup gem "Sensitivity").getD (.str "")
    let cd1 : ℚ × List String :=
      if jeq pt.final_category gemCat then (1, [])
      else (0, ["category: prompt_tree=" ++ pyStr pt.final_category ++
                ", gemini=" ++ pyStr gemCat])
    match asNum ((jlookup gem "Confidence").getD (.num (7/10))) with
    | .error e => .error e
    | .ok gq =>
        let gap := |pt.confidence - gq|
        let cd2 : ℚ × List String :=
          if gap < 1/5 then (1, []) else (1/2, ["confidence_gap: " ++ fmt2 gap])
        .ok ((cd1.1 + cd2.1) / 2, cd1.2 ++ cd2.2)

/-- C3: with a numeric secondary confidence, the agreement score is 0 with
disagreements [gemini_error] when the secondary result has an error key;
otherwise it is the mean of a category component (1 on match, else 0 plus a
note naming both categories) and a confidence component (1 when the gap is
below 0.2, else 0.5 plus a note naming the gap), hence lies in [0, 1]; and
matching categories with confidences within 0.2 give score 1 and no
disagreements. -/
theorem compute_llm_agreement_spec (pt : PromptTree) (gem : List (String × JVal))
    (gq : ℚ) (hq : asNum ((jlookup gem "Confidence").getD (.num (7/10))) = .ok gq) :
    ((jlookup gem "error").isSome = true →
      compute_llm_agreement pt gem = .ok (0, ["gemini_error"])) ∧
    ((jlookup gem "error").isSome = false →
      compute_llm_agreement pt gem =
        .ok (((if jeq pt.final_category ((jlookup gem "Sensitivity").getD (.str ""))
               then (1 : ℚ) else 0) +
              (if |pt.confidence - gq| < 1/5 then (1 : ℚ) else 1/2)) / 2,
             (if jeq pt.final_category ((jlookup gem "Sensitivity").getD (.str ""))
              then [] else
                ["category: prompt_tree=" ++ pyStr pt.final_category ++ ", gemini=" ++
                 pyStr ((jlookup gem "Sensitivity").getD (.str ""))]) ++
             (if |pt.confidence - gq| < 1/5 then []
              else ["confidence_gap: " ++ fmt2 |pt.confidence - gq|])) ∧
      (0 : ℚ) ≤ ((if jeq pt.final_category ((jlookup gem "Sensitivity").getD (.str ""))
                  then (1 : ℚ) else 0) +
                 (if |pt.confidence - gq| < 1/5 then (1 : ℚ) else 1/2)) / 2 ∧
      ((if jeq pt.final_category ((jlookup gem "Sensitivity").getD (.str ""))
        then (1 : ℚ) else 0) +
       (if |pt.confidence - gq| < 1/5 then (1 : ℚ) else 1/2)) / 2 ≤ 1 ∧
      (jeq pt.final_category ((jlookup gem "Sensitivity").getD (.str "")) = true →
        |pt.confidence - gq| < 1/5 →
        compute_llm_agreement pt gem = .ok (1, []))) := by
  constructor
  · intro herr
    unfold compute_llm_agreement
    rw [herr]
    rfl
  · intro herr
    unfold compute_llm_agreement
    rw [herr]
    simp only [Bool.false_eq_true, if_false, hq]
    refine ⟨?_, ?_, ?_, ?_⟩
    · split_ifs <;> rfl
    · split_ifs <;> norm_num
    · split_ifs <;> norm_num
    · intro hcat hgap
      simp only [hcat, if_true, hgap]
      norm_num

theorem compute_llm_agreement_spec_witness :
    (((jlookup [("Sensitivity", JVal.str "Public"), ("Confidence", JVal.num (17/20))] "error").isSome = true →
      compute_llm_agreement
        ⟨.str "Public", .arr [], 9/10, [], .str "", "prompt_tree"⟩
        [("Sensitivity", JVal.str "Public"), ("Confidence", JVal.num (17/20))] =
        .ok (0, ["gemini_error"])) ∧
     ((jlookup [("Sensitivity", JVal.str "Public"), ("Confidence", JVal.num (17/20))] "error").isSome = false →
      compute_llm_agreement
        ⟨.str "Public", .arr [], 9/10, [], .str "", "prompt_tree"⟩
        [("Sensitivity", JVal.str "Public"), ("Confidence", JVal.num (17/20))] =
        .ok (((if jeq (JVal.str "Public")
                 ((jlookup [("Sensitivity", JVal.str "Public"), ("Confidence", JVal.num (17/20))] "Sensitivity").getD (.str ""))
               then (1 : ℚ) else 0) +
              (if |(9/10 : ℚ) - 17/20| < 1/5 then (1 : ℚ) else 1/2)) / 2,
             (if jeq (JVal.str "Public")
                ((jlookup [("Sensitivity", JVal.str "Public"), ("Confidence", JVal.num (17/20))] "Sensitivity").getD (.str ""))
              then [] else
                ["category: prompt_tree=" ++ pyStr (JVal.str "Public") ++ ", gemini=" ++
                 pyStr ((jlookup [("Sensitivity", JVal.str "Public"), ("Confidence", JVal.num (17/20))] "Sensitivity").getD (.str ""))]) ++
             (if |(9/10 : ℚ) - 17/20| < 1/5 then []
              else ["confidence_gap: " ++ fmt2 |(9/10 : ℚ) - 17/20|])) ∧
      (0 : ℚ) ≤ ((if jeq (JVal.str "Public")
                 ((jlookup [("Sensitivity", JVal.str "Public"), ("Confidence", JVal.num (17/20))] "Sensitivity").getD (.str ""))
               then (1 : ℚ) else 0) +
              (if |(9/10 : ℚ) - 17/20| < 1/5 then (1 : ℚ) else 1/2)) / 2 ∧
      ((if jeq (JVal.str "Public")
                 ((jlookup [("Sensitivity", JVal.str "Public"), ("Confidence", JVal.num (17/20))] "Sensitivity").getD (.str ""))
               then (1 : ℚ) else 0) +
              (if |(9/10 : ℚ) - 17/20| < 1/5 then (1 : ℚ) else 1/2)) / 2 ≤ 1 ∧
      (jeq (JVal.str "Public")
         ((jlookup [("Sensitivity", JVal.str "Public"), ("Confidence", JVal.num (17/20))] "Sensitivity").getD (.str "")) = true →
        |(9/10 : ℚ) - 17/20| < 1/5 →
        compute_llm_agreement
          ⟨.str "Public", .arr [], 9/10, [], .str "", "prompt_tree"⟩
          [("Sensitivity", JVal.str "Public"), ("Confidence", JVal.num (17/20))] =
          .ok (1, [])))) :=
  compute_llm_agreement_spec
    ⟨.str "Public", .arr [], 9/10, [], .str "", "prompt_tree"⟩
    [("Sensitivity", JVal.str "Public"), ("Confidence", JVal.num (17/20))]
    (17/20) (by rfl)

/-- A prompt template, the result of getPrompt (src/prompt_lib.py). -/
structure PromptCfg where
  role : String
  content : String

/-- One stop_if condition of a node spec; a missing key is none. -/
structure StopCond where
  path : Option String := none
  field : Option String := none
  equals : Option JVal := none

/-- A prompt-flow node spec: the external configuration consumed by
classify_document, with the same defaults the Python dict.get calls use. -/
structure NodeSpec where
  id : String
  prompt : String
  runner : String := ""
  cond_has_images : Bool := false
  signals_true : List String := []
  signals_false : List String := []
  depends_on : List String := []
  use_summary_pages : Bool := false
  collect_summary : Bool := false
  stop_if : List StopCond := []
  stop_on_error : Bool := true
  final_node : Bool := false

/-- getattr(signals, attr, False) followed by Python truthiness. -/
def signalAttr (s : DetectorSignals) : String → Bool
  | "has_pii" => s.has_pii
  | "pii_hits" => !s.pii_hits.isEmpty
  | "has_unsafe_pattern" => s.has_unsafe_pattern
  | "unsafe_hits" => !s.unsafe_hits.isEmpty
  | "has_internal_markers" => s.has_internal_markers
  | "notes" => !s.notes.isEmpty
  | _ => false

/-- _should_run_node from src/app/orchestrator.py. -/
def should_run_node (n : NodeSpec) (signals : DetectorSignals)
    (imagesData : List JVal) : Bool :=
  !(n.cond_has_images && imagesData.isEmpty) &&
  n.signals_true.all (fun a => signalAttr signals a) &&
  n.signals_false.all (fun a => !signalAttr signals a)

/-- _dependencies_ready from src/app/orchestrator.py. -/
def dependencies_ready (n : NodeSpec) (outputs : List (String × JVal)) : Bool :=
  n.depends_on.all (fun d => (jlookup outputs d).isSome)

/-- _output_has_error from src/app/orchestrator.py. -/
def output_has_error : JVal → Bool
  | .obj kvs =>
      (match jlookup kvs "mock" with
       | some v => pyTruthy v
       | none => false)
  | _ => false

/-- The error-marker object built on a caught exception. -/
def errMarker (msg node : String) : JVal :=
  .obj [("mock", .bool true), ("error", .str msg), ("prompt_node", .str node)]

def digitsToNat (l : List Char) : ℕ :=
  l.foldl (fun a c => a * 10 + (c.toNat - 48)) 0

/-- Python int(part) on a string: optional sign then digits (surrounding
whitespace and underscores accepted by Python are not modelled). -/
def parsePyInt (s : String) : Option Int :=
  let go : Bool → List Char → Option Int := fun neg ds =>
    if ds.isEmpty || !ds.all Char.isDigit then none
    else some (if neg then -(digitsToNat ds : Int) else (digitsToNat ds : Int))
  match s.toList with
  | '-' :: rest => go true rest
  | '+' :: rest => go false rest
  | l => go false l

/-- Python float(str): sign, decimal digits with optional point, optional
exponent (inf, nan and digit underscores are not modelled). -/
def parseFloatStr (s : String) : Option ℚ :=
  let l := s.trim.toList
  let sl : Bool × List Char :=
    match l with
    | '-' :: rest => (true, rest)
    | '+' :: rest => (false, rest)
    | _ => (false, l)
  let ml : List Char × Option (List Char) :=
    match sl.2.findIdx? (fun c => c = 'e' || c = 'E') with
    | none => (sl.2, none)
    | some i => (sl.2.take i, some (sl.2.drop (i + 1)))
  let exVal : Option Int :=
    match ml.2 with
    | none => some 0
    | some ec => parsePyInt (String.mk ec)
  let mantVal : Option ℚ :=
    match ml.1.findIdx? (fun c => c = '.') with
    | none =>
        if ml.1.isEmpty || !ml.1.all Char.isDigit then none
        else some (digitsToNat ml.1 : ℚ)
    | some i =>
        let ip := ml.1.take i
        let fp := ml.1.drop (i + 1)
        if (ip.isEmpty && fp.isEmpty) || !ip.all Char.isDigit || !fp.all Char.isDigit
        then none
        else some ((digitsToNat ip : ℚ) + (digitsToNat fp : ℚ) / (10 : ℚ) ^ fp.length)
  match mantVal, exVal with
  | some m, some e => some ((if sl.1 then -m else m) * (10 : ℚ) ^ e)
  | _, _ => none

/-- Python float(x) as applied to the parsed confidence field. -/
def pyFloat : JVal → Option ℚ
  | .num q => some q
  | .bool b => some (if b then 1 else 0)
  | .str s => parseFloatStr s
  | _ => none

/-- Python dict assignment for the integer-keyed summary-pages map. -/
def summarySet (m : List (Int × String)) (k : Int) (v : String) :
    List (Int × String) :=
  if m.any (fun kv => kv.1 == k) then
    m.map (fun kv => if kv.1 == k then (k, v) else kv)
  else m ++ [(k, v)]

/-- _update_summary_pages from src/app/orchestrator.py (entries whose page
is a truthy integer and whose summary is a truthy string are merged). -/
def update_summary_pages (output : JVal) (summary : List (Int × String)) :
    List (Int × String) :=
  match output with
  | .arr entries =>
      entries.foldl
        (fun acc e =>
          match e with
          | .obj kvs =>
              (match jlookup kvs "page", jlookup kvs "summary" with
               | some (.num p), some (.str sm) =>
                   if p.den == 1 && decide (p ≠ 0) && !sm.isEmpty
                   then summarySet acc p.num sm else acc
               | _, _ => acc)
          | _ => acc)
        summary
  | _ => summary

/-- The dotted-path traversal of _extract_path_value; a Python None result
is JVal.null. -/
def extractPathGo : JVal → List String → JVal
  | current, [] => current
  | .obj kvs, part :: rest => extractPathGo ((jlookup kvs part).getD .null) rest
  | .arr xs, part :: rest =>
      (match parsePyInt part with
       | none => .null
       | some i =>
           if i < 0 || (xs.length : Int) ≤ i then .null
           else extractPathGo (xs.getD i.toNat .null) rest)
  | _, _ :: _ => .null

/-- _extract_path_value from src/app/orchestrator.py. -/
def extract_path_value (payload : JVal) (path : String) : JVal :=
  extractPathGo payload (path.splitOn ".")

/-- cond.get("path") or cond.get("field") — the first truthy of the two. -/
def condField (cond : StopCond) : Option String :=
  let pick : Option String → Option String := fun o =>
    match o with
    | some s => if s.isEmpty then none else some s
    | none => none
  match pick cond.path with
  | some p => some p
  | none => pick cond.field

def stop_cond_holds (cond : StopCond) (output : JVal) : Bool :=
  match condField cond with
  | none => false
  | some f =>
      let value := extract_path_value output f
      (match cond.equals with
       | some e => jeq value e
       | none => pyTruthy value)

/-- _stop_conditions_met from src/app/orchestrator.py. -/
def stop_conditions_met (n : NodeSpec) (output : JVal) : Bool :=
  n.stop_if.any (fun c => stop_cond_holds c output)

/-- Validation of an Optional[int] citation field (pydantic rejects other
shapes, raising inside the caller; numeric-string/float coercion of older
pydantic versions is not modelled). -/
def intOrNone : Option JVal → Option (Option Int)
  | none => some none
  | some .null => some none
  | some (.num q) => if q.den == 1 then some (some q.num) else none
  | some _ => none

/-- Validation of an Optional[str] citation field. -/
def strOrNone : Option JVal → Option (Option String)
  | none => some none
  | some .null => some none
  | some (.str s) => some (some s)
  | some _ => none

/-- Empty result means a validation error (exception).  Inner `some none`
means the entry is skipped, `some (some c)` appends the citation c. -/
def pageTextCite (node_id textKey : String) (span : JVal) :
    Option (Option Citation) :=
  match span with
  | .obj kvs =>
      let text := (jlookup kvs textKey).getD .null
      if !pyTruthy text then some none
      else
        (match text, intOrNone (jlookup kvs "page") with
         | .str s, some p => some (some ⟨p, s, none, none, some node_id⟩)
         | _, _ => none)
  | _ => some none

/-- A final_decision-node citation entry inside _collect_citations. -/
def finalNodeCite (span : JVal) : Option (Option Citation) :=
  match span with
  | .obj kvs =>
      let sn := (jlookup kvs "snippet").getD .null
      if !pyTruthy sn then some none
      else
        (match sn, intOrNone (jlookup kvs "page"),
               intOrNone (jlookup kvs "image_index"),
               strOrNone (jlookup kvs "region") with
         | .str s, some p, some ii, some r =>
             some (some ⟨p, s, ii, r, some "final_decision"⟩)
         | _, _, _, _ => none)
  | _ => some none

def strListOf : List JVal → Option (List String)
  | [] => some []
  | .str s :: rest => (strListOf rest).map (fun l => s :: l)
  | _ => none

/-- An image_analysis finding inside _collect_citations.  A string value of
regions_of_concern iterates over its characters under Python join; joining
a list raises when an element is not a string. -/
def findingCite (span : JVal) : Option (Option Citation) :=
  match span with
  | .obj kvs =>
      let desc := (jlookup kvs "description").getD .null
      if !pyTruthy desc then some none
      else
        (match desc with
         | .str d =>
             let rv := (jlookup kvs "regions_of_concern").getD .null
             let rt : Option (Option String) :=
               if !pyTruthy rv then some none
               else
                 (match rv with
                  | .arr xs => (strListOf xs).map
                      (fun ss => some (String.intercalate ", " ss))
                  | .str s => some (some (String.intercalate ", "
                      (s.toList.map (fun c => String.mk [c]))))
                  | _ => none)
             (match rt, intOrNone (jlookup kvs "page"),
                    intOrNone (jlookup kvs "image_index") with
              | some r, some p, some ii =>
                  some (some ⟨p, d, ii, r, some "image_analysis"⟩)
              | _, _, _ => none)
         | _ => none)
  | _ => some none

/-- Sequential citation building with the partial-on-exception semantics of
_collect_citations: its try/except returns the citations gathered before
the first failing entry. -/
def buildCites (f : JVal → Option (Option Citation)) : List JVal → List Citation
  | [] => []
  | x :: rest =>
      match f x with
      | some (some c) => c :: buildCites f rest
      | some none => buildCites f rest
      | none => []

/-- The list value iterated by a _collect_citations branch: a missing key
defaults to [], iterating a string or a dict yields non-dict items (all
skipped), iterating anything else raises immediately (partial result []). -/
def iterEntries (v : Option JVal) : List JVal :=
  match v with
  | none => []
  | some (.arr xs) => xs
  | some _ => []

/-- _collect_citations from src/app/orchestrator.py: node-id-specific
citation extraction with a catch-all returning the partial list. -/
def collect_citations (node_id : String) (output : JVal) : List Citation :=
  if output_has_error output then []
  else
    match output with
    | .obj kvs =>
        if node_id = "pii_scan" then
          buildCites (pageTextCite node_id "text") (iterEntries (jlookup kvs "pii_spans"))
        else if node_id = "unsafe_scan" then
          buildCites (pageTextCite node_id "text") (iterEntries (jlookup kvs "citations"))
        else if node_id = "confidentiality_scan" then
          buildCites (pageTextCite node_id "snippet") (iterEntries (jlookup kvs "citations"))
        else if node_id = "final_decision" then
          buildCites finalNodeCite (iterEntries (jlookup kvs "citations"))
        else if node_id = "image_analysis" then
          buildCites findingCite (iterEntries (jlookup kvs "findings"))
        else []
    | _ => []

/-- The mutable state of the classify_document node loop. -/
structure FlowState where
  outputs : List (String × JVal) := []
  prompt_errors : List String := []
  summary_pages : List (Int × String) := []
  audit : List Citation := []
  final_node_id : Option String := none

/-- _run_prompt (src/app/orchestrator.py lines 89-108): an unknown prompt
name raises KeyError out of the function (message is the quoted name);
a transport failure is caught inside and becomes a marker whose
prompt_node field is the PROMPT NAME.  Message construction for the LLM
is not modelled: the transport is an oracle keyed by the calling node. -/
def run_prompt (get_prompt : String → Option PromptCfg)
    (transportResult : Except String JVal) (name : String) : Except String JVal :=
  match get_prompt name with
  | none => .error ("'" ++ name ++ "'")
  | some _ =>
      match transportResult with
      | .error e => .ok (errMarker e name)
      | .ok v => .ok v

/-- One node invocation inside classify_document's try (lines 133-155):
none models the multimodal continue when no images were supplied;
otherwise the recorded output, any escaping exception being caught and
converted to a marker keyed by the NODE ID. -/
def exec_node (get_prompt : String → Option PromptCfg)
    (transport : String → Except String JVal) (imagesData : List JVal)
    (n : NodeSpec) : Option JVal :=
  if n.runner = "multimodal" then
    if imagesData.isEmpty then none
    else some
      (match get_prompt n.prompt with
       | none => errMarker ("'" ++ n.prompt ++ "'") n.id
       | some _ =>
           match transport n.id with
           | .error e => errMarker e n.id
           | .ok v => v)
  else some
    (match run_prompt get_prompt (transport n.id) n.prompt with
     | .error e => errMarker e n.id
     | .ok v => v)

/-- One iteration of the node loop (lines 125-176); the returned Bool is
the break flag.  The branch structure of the source is flattened into one
state record: on an error output the node id joins prompt_errors and, when
stop_on_error (default), the loop breaks at once, skipping the summary and
stop-condition section, which otherwise runs for error and success alike;
citations are harvested only from non-error outputs; a stop condition or a
final_node flag breaks with this node as terminal. -/
def step_node (get_prompt : String → Option PromptCfg)
    (transport : String → Except String JVal) (signals : DetectorSignals)
    (imagesData : List JVal) (st : FlowState) (n : NodeSpec) :
    FlowState × Bool :=
  if !should_run_node n signals imagesData then (st, false)
  else if !dependencies_ready n st.outputs then (st, false)
  else
    match exec_node get_prompt transport imagesData n with
    | none => (st, false)
    | some output =>
        let isErr := output_has_error output
        let brkErr := isErr && n.stop_on_error
        let brkStop := !brkErr && (stop_conditions_met n output || n.final_node)
        ({ outputs := dictSet st.outputs n.id output
           prompt_errors := if isErr then st.prompt_errors ++ [n.id]
                            else st.prompt_errors
           summary_pages := if !brkErr && n.collect_summary then
               update_summary_pages output st.summary_pages
             else st.summary_pages
           audit := if isErr then st.audit
                    else st.audit ++ collect_citations n.id output
           final_node_id := if brkErr || brkStop then some n.id
                            else st.final_node_id },
         brkErr || brkStop)

/-- The node loop of classify_document (lines 125-176). -/
def run_flow (get_prompt : String → Option PromptCfg)
    (transport : String → Except String JVal) (signals : DetectorSignals)
    (imagesData : List JVal) : FlowState → List NodeSpec → FlowState
  | st, [] => st
  | st, n :: rest =>
      let sb := step_node get_prompt transport signals imagesData st n
      if sb.2 then sb.1
      else run_flow get_prompt transport signals imagesData sb.1 rest

/-- Terminal-node resolution (lines 178-183): the break-time node if any,
else a reverse scan for the last node with a truthy id that produced an
output. -/
def final_node_id_of (flow : List NodeSpec) (st : FlowState) : Option String :=
  match st.final_node_id with
  | some i => some i
  | none =>
      (flow.reverse.find? (fun (n : NodeSpec) =>
          !n.id.isEmpty && (jlookup st.outputs n.id).isSome)).map
        (fun (n : NodeSpec) => n.id)

/-- The terminal output (line 185); a falsy terminal id yields none. -/
def final_out_of (flow : List NodeSpec) (st : FlowState) : Option JVal :=
  match final_node_id_of flow st with
  | some i => if i.isEmpty then none else jlookup st.outputs i
  | none => none

/-- All-or-raise citation building for the terminal-output parse in
classify_document (lines 209-219): a validation error there aborts the
whole parse and forces the fallback. -/
def parseCites : List JVal → Option (List Citation)
  | [] => some []
  | x :: rest =>
      match finalNodeCite x with
      | some (some c) => (parseCites rest).map (fun l => c :: l)
      | some none => parseCites rest
      | none => none

/-- The value iterated by the terminal-output citations comprehension;
none models a TypeError on a non-iterable value. -/
def iterEntriesE (v : Option JVal) : Option (List JVal) :=
  match v with
  | none => some []
  | some (.arr xs) => some xs
  | some (.str _) => some []
  | some (.obj _) => some []
  | some _ => none

/-- The structured-parse attempt on the terminal output (classify_document
lines 204-227): returns (final_category, secondary_tags, confidence,
final-decision citations, explanation), or none when the Python try block
would raise (missing final_category, non-floatable confidence, bad
citation entries).  Transports are modelled as returning parsed values, so
the json.loads re-parse of string outputs is not modelled (a non-dict
terminal output falls back). -/
def parse_final_out (v : JVal) : Option (JVal × JVal × ℚ × List Citation × JVal) :=
  match v with
  | .obj kvs =>
      (match jlookup kvs "final_category" with
       | none => none
       | some fc =>
           match (match jlookup kvs "confidence" with
                  | none => some (7/10 : ℚ)
                  | some w => pyFloat w) with
           | none => none
           | some conf =>
               match iterEntriesE (jlookup kvs "citations") with
               | none => none
               | some entries =>
                   match parseCites entries with
                   | none => none
                   | some cites =>
                       some (fc, (jlookup kvs "secondary_tags").getD (.arr []),
                             conf, cites,
                             (jlookup kvs "explanation").getD (.str "")))
  | _ => none

/-- The fallback arm of the decision resolver (lines 190-202/239-250):
fallback verdict, fallback citations merged into the audit trail and
deduplicated. -/
def fallback_tree (signals : DetectorSignals) (audit : List Citation) :
    PromptTree × List Citation :=
  match fallback_decision signals with
  | (cat, tags, conf, fcites, expl) =>
      let audit2 := if fcites.isEmpty then audit else audit ++ fcites
      let cites := if audit2.isEmpty then fcites else dedupe_citations audit2
      (⟨.str cat, .arr (tags.map JVal.str), conf, cites, .str expl, "fallback"⟩,
       cites)

/-- The decision-resolver block of classify_document (lines 188-250):
terminal output absent, falsy, an error marker, or unparsable → the
deterministic fallback ladder; otherwise the parsed primary verdict.
Returns the prompt_tree_result record and the final citation list. -/
def decide_from_final (signals : DetectorSignals) (audit : List Citation)
    (finalOut : Option JVal) : PromptTree × List Citation :=
  match finalOut with
  | none => fallback_tree signals audit
  | some v =>
      if !pyTruthy v || output_has_error v then fallback_tree signals audit
      else
        match parse_final_out v with
        | none => fallback_tree signals audit
        | some (fc, tags, conf, fdCites, expl) =>
            let audit2 := if fdCites.isEmpty then audit else audit ++ fdCites
            let cites := if audit2.isEmpty then fdCites else dedupe_citations audit2
            (⟨fc, tags, conf, cites, expl, "prompt_tree"⟩, cites)

structure DualLlmValidation where
  agreement_score : ℚ
  disagreements : List String
  resolution_strategy : String

/-- The llm_payload audit record assembled by classify_document. -/
structure LlmPayload where
  prompt_errors : List String
  prompt_tree : PromptTree
  prompt_flow : List (String × JVal)
  gemini : List (String × JVal)
  dual_llm_validation : DualLlmValidation

/-- The ClassificationResult record of src/app/models.py, restricted to the
fields classify_document sets.  Loosely-typed fields keep their JSON
values; pydantic coercion/validation of those fields is not modelled. -/
structure ClassificationResult where
  doc_id : String
  final_category : JVal
  secondary_tags : JVal
  confidence : ℚ
  citations : List Citation
  explanation : JVal
  page_count : ℕ
  image_count : Int
  content_safety : JVal
  raw_signals : DetectorSignals
  llm_payload : LlmPayload
  requires_review : Bool
  dual_llm_agreement : ℚ
  dual_llm_disagreements : Option (List String)

/-- The conflict-resolved final category of classify_document line 265:
the secondary category takes part only when the secondary reported no
error (a Python None secondary argument is JVal.null). -/
def resolved_final (ptr : PromptTree) (gem : List (String × JVal)) : JVal :=
  resolve_category_conflict ptr.final_category
    (if (jlookup gem "error").isSome then .null
     else (jlookup gem "Sensitivity").getD .null)

/-- The adoption test of classify_document line 271: the secondary made
the final call. -/
def adopt_secondary (ptr : PromptTree) (gem : List (String × JVal)) : Bool :=
  jeq (resolved_final ptr gem) ((jlookup gem "Sensitivity").getD .null) &&
  !(jlookup gem "error").isSome

/-- The final confidence (line 272/276); an adopted non-numeric secondary
confidence raises a TypeError at the later comparison, modelled here. -/
def final_confidence_of (ptr : PromptTree) (gem : List (String × JVal)) :
    Except String ℚ :=
  if adopt_secondary ptr gem then
    match jlookup gem "Confidence" with
    | none => Except.ok ptr.confidence
    | some w => asNum w
  else Except.ok ptr.confidence

/-- The reconciliation-and-assembly tail of classify_document (lines
252-317).  gem is the secondary (gemini) verdict as a dict:
get_gemini_reasoning catches every exception internally and returns data,
so it is an oracle value; non-dict secondary outputs are not modelled.
The Except models the uncaught TypeError a non-numeric secondary
confidence would raise in _compute_llm_agreement or the review check. -/
def assemble_result (doc_id : String) (pages : List (Int × String))
    (signals : DetectorSignals) (image_count : Int)
    (gem : List (String × JVal)) (st : FlowState)
    (ptr : PromptTree) (cites : List Citation) :
    Except String ClassificationResult :=
  match compute_llm_agreement ptr gem with
  | .error e => .error e
  | .ok ag =>
      match final_confidence_of ptr gem with
      | .error e => .error e
      | .ok fc =>
          .ok
            { doc_id := doc_id
              final_category := resolved_final ptr gem
              secondary_tags :=
                if adopt_secondary ptr gem then
                  (match jlookup gem "Critical_info" with
                   | some (.arr xs) => JVal.arr xs
                   | _ => ptr.secondary_tags)
                else ptr.secondary_tags
              confidence := fc
              citations := cites
              explanation :=
                if adopt_secondary ptr gem then
                  (jlookup gem "Reasoning").getD ptr.explanation
                else ptr.explanation
              page_count := pages.length
              image_count := image_count
              content_safety :=
                if (jlookup gem "error").isSome then
                  JVal.str "Content is safe for kids"
                else (jlookup gem "Content_safety").getD
                  (.str "Content is safe for kids")
              raw_signals := signals
              llm_payload := ⟨st.prompt_errors, ptr, st.outputs, gem,
                              ⟨ag.1, ag.2, "most_restrictive"⟩⟩
              requires_review :=
                decide (fc < 4/5) || signals.has_unsafe_pattern ||
                !st.prompt_errors.isEmpty || decide (ag.1 < 7/10) || !ag.2.isEmpty
              dual_llm_agreement := ag.1
              dual_llm_disagreements := if ag.2.isEmpty then none else some ag.2 }

/-- classify_document from src/app/orchestrator.py, parameterised by the
external collaborators: the flow config (get_prompt_flow), the prompt
catalog (get_prompt, none = unknown name), the per-node LLM transport
oracle (Except.error = the transport raised), and the secondary (gemini)
verdict. -/
def classify_document (flow : List NodeSpec)
    (get_prompt : String → Option PromptCfg)
    (transport : String → Except String JVal) (gem : List (String × JVal))
    (doc_id : String) (pages : List (Int × String)) (signals : DetectorSignals)
    (image_count : Int) (imagesData : List JVal) :
    Except String ClassificationResult :=
  let st := run_flow get_prompt transport signals imagesData {} flow
  let pc := decide_from_final signals st.audit (final_out_of flow st)
  assemble_result doc_id pages signals image_count gem st pc.1 pc.2

theorem errMarker_has_error (m x : String) :
    output_has_error (errMarker m x) = true := rfl

theorem errMarker_conf_none (m x : String) (kvs : List (String × JVal))
    (h : errMarker m x = .obj kvs) : jlookup kvs "confidence" = none := by
  unfold errMarker at h
  injection h with h
  subst h
  rfl

theorem jeq_str_self (s : String) : jeq (.str s) (.str s) = true := by
  simp [jeq]

theorem jlookup_mem (kvs : List (String × JVal)) (k : String) (v : JVal)
    (h : jlookup kvs k = some v) : (k, v) ∈ kvs := by
  induction kvs with
  | nil => cases h
  | cons kv rest ih =>
      obtain ⟨k', v'⟩ := kv
      by_cases hk : k' = k
      · subst hk
        simp [jlookup] at h
        subst h
        exact List.mem_cons_self _ _
      · simp [jlookup, hk] at h
        exact List.mem_cons_of_mem _ (ih h)

theorem dictSet_mem (kvs : List (String × JVal)) (k : String) (v : JVal)
    (i : String) (w : JVal) (h : (i, w) ∈ dictSet kvs k v) :
    (i, w) ∈ kvs ∨ w = v := by
  unfold dictSet at h
  split at h
  · rcases List.mem_map.mp h with ⟨⟨i0, w0⟩, hmem, heq⟩
    by_cases h0 : i0 = k
    · simp only [h0, if_true] at heq
      right
      exact (Prod.mk.injEq _ _ _ _ ▸ heq).2.symm
    · simp only [h0, if_false] at heq
      left
      obtain ⟨h1, h2⟩ := Prod.mk.injEq _ _ _ _ ▸ heq
      rw [← h1, ← h2]
      exact hmem
  · rcases List.mem_append.mp h with h1 | h2
    · exact Or.inl h1
    · right
      simp at h2
      exact h2.2

theorem dictSet_ne_nil (kvs : List (String × JVal)) (k : String) (v : JVal) :
    dictSet kvs k v ≠ [] := by
  unfold dictSet
  split
  · next hs =>
      intro hnil
      rw [List.map_eq_nil_iff] at hnil
      subst hnil
      simp [jlookup] at hs
  · simp

theorem exec_node_shape (gp : String → Option PromptCfg)
    (tr : String → Except String JVal) (im : List JVal) (n : NodeSpec)
    (v : JVal) (h : exec_node gp tr im n = some v) :
    (∃ m x, v = errMarker m x) ∨ ∃ id, tr id = Except.ok v := by
  unfold exec_node at h
  split at h
  · split at h
    · cases h
    · rw [Option.some.injEq] at h
      split at h
      · exact Or.inl ⟨_, _, h.symm⟩
      · split at h
        · exact Or.inl ⟨_, _, h.symm⟩
        · next htr => exact Or.inr ⟨n.id, by rw [htr, h]⟩
  · rw [Option.some.injEq] at h
    split at h
    · exact Or.inl ⟨_, _, h.symm⟩
    · next w hrp =>
        unfold run_prompt at hrp
        split at hrp
        · cases hrp
        · split at hrp
          · rw [Except.ok.injEq] at hrp
            exact Or.inl ⟨_, _, by rw [← h, ← hrp]⟩
          · next htr =>
              rw [Except.ok.injEq] at hrp
              exact Or.inr ⟨n.id, by rw [htr, hrp, h]⟩

theorem exec_node_marker_of_unknown (gp : String → Option PromptCfg)
    (tr : String → Except String JVal) (im : List JVal) (n : NodeSpec)
    (hgp : gp n.prompt = none) (v : JVal) (h : exec_node gp tr im n = some v) :
    ∃ m x, v = errMarker m x := by
  unfold exec_node at h
  split at h
  · split at h
    · cases h
    · rw [Option.some.injEq] at h
      rw [hgp] at h
      exact ⟨_, _, h.symm⟩
  · rw [Option.some.injEq] at h
    unfold run_prompt at h
    rw [hgp] at h
    exact ⟨_, _, h.symm⟩

theorem exec_node_marker_of_raise (gp : String → Option PromptCfg)
    (tr : String → Except String JVal) (im : List JVal) (n : NodeSpec)
    (htr : ∀ id, ∃ e, tr id = Except.error e) (v : JVal)
    (h : exec_node gp tr im n = some v) : ∃ m x, v = errMarker m x := by
  rcases exec_node_shape gp tr im n v h with hm | ⟨id, hid⟩
  · exact hm
  · obtain ⟨e, he⟩ := htr id
    rw [he] at hid
    cases hid

theorem step_node_outputs (gp : String → Option PromptCfg)
    (tr : String → Except String JVal) (sg : DetectorSignals) (im : List JVal)
    (st : FlowState) (n : NodeSpec) (i : String) (w : JVal)
    (h : (i, w) ∈ (step_node gp tr sg im st n).1.outputs) :
    (i, w) ∈ st.outputs ∨ ∃ v, exec_node gp tr im n = some v ∧ w = v := by
  unfold step_node at h
  split at h
  · exact Or.inl h
  · split at h
    · exact Or.inl h
    · split at h
      · exact Or.inl h
      · next v hv =>
          rcases dictSet_mem st.outputs n.id v i w h with h1 | h2
          · exact Or.inl h1
          · exact Or.inr ⟨v, hv, h2⟩

theorem step_node_err_preserve (gp : String → Option PromptCfg)
    (tr : String → Except String JVal) (sg : DetectorSignals) (im : List JVal)
    (st : FlowState) (n : NodeSpec)
    (hm : ∀ v, exec_node gp tr im n = some v → output_has_error v = true)
    (h : st.outputs ≠ [] → st.prompt_errors ≠ []) :
    (step_node gp tr sg im st n).1.outputs ≠ [] →
      (step_node gp tr sg im st n).1.prompt_errors ≠ [] := by
  unfold step_node
  split
  · exact h
  · split
    · exact h
    · split
      · exact h
      · next v hv =>
          intro _
          have herr := hm v hv
          show (if output_has_error v then st.prompt_errors ++ [n.id]
                else st.prompt_errors) ≠ []
          rw [herr]
          simp

theorem run_flow_cons (gp : String → Option PromptCfg)
    (tr : String → Except String JVal) (sg : DetectorSignals) (im : List JVal)
    (st : FlowState) (n : NodeSpec) (rest : List NodeSpec) :
    run_flow gp tr sg im st (n :: rest) =
      (if (step_node gp tr sg im st n).2 then (step_node gp tr sg im st n).1
       else run_flow gp tr sg im (step_node gp tr sg im st n).1 rest) := rfl

theorem run_flow_preserve (P : FlowState → Prop)
    (gp : String → Option PromptCfg) (tr : String → Except String JVal)
    (sg : DetectorSignals) (im : List JVal) :
    ∀ (l : List NodeSpec) (st : FlowState),
      (∀ st' n, n ∈ l → P st' → P ((step_node gp tr sg im st' n).1)) →
      P st → P (run_flow gp tr sg im st l) := by
  intro l
  induction l with
  | nil => intro st _ h; exact h
  | cons n rest ih =>
      intro st hstep h
      rw [run_flow_cons]
      by_cases hb : (step_node gp tr sg im st n).2 = true
      · rw [if_pos hb]
        exact hstep st n (List.mem_cons_self _ _) h
      · rw [if_neg hb]
        exact ih _ (fun st' n' hn' => hstep st' n' (List.mem_cons_of_mem _ hn'))
          (hstep st n (List.mem_cons_self _ _) h)

theorem final_out_mem (flow : List NodeSpec) (st : FlowState) (v : JVal)
    (h : final_out_of flow st = some v) : ∃ i, (i, v) ∈ st.outputs := by
  unfold final_out_of at h
  cases hfid : final_node_id_of flow st with
  | none => rw [hfid] at h; cases h
  | some i =>
      rw [hfid] at h
      dsimp only at h
      split at h
      · cases h
      · exact ⟨i, jlookup_mem st.outputs i v h⟩

theorem fallback_tree_category (signals : DetectorSignals) (audit : List Citation) :
    (fallback_tree signals audit).1.final_category =
      .str (fallback_decision signals).1 := rfl

theorem fallback_tree_conf (signals : DetectorSignals) (audit : List Citation) :
    (fallback_tree signals audit).1.confidence = 7/10 := rfl

theorem parse_final_out_conf (v : JVal) (fc tags : JVal) (conf : ℚ)
    (cites : List Citation) (expl : JVal)
    (h : parse_final_out v = some (fc, tags, conf, cites, expl)) :
    ∃ kvs, v = JVal.obj kvs ∧
      ((jlookup kvs "confidence" = none ∧ conf = 7/10) ∨
       ∃ w, jlookup kvs "confidence" = some w ∧ pyFloat w = some conf) := by
  unfold parse_final_out at h
  split at h
  · next kvs =>
      split at h
      · cases h
      · split at h
        · cases h
        · next conf' hconf' =>
            split at h
            · cases h
            · split at h
              · cases h
              · rw [Option.some.injEq] at h
                simp only [Prod.mk.injEq] at h
                obtain ⟨_, _, hcc, _, _⟩ := h
                refine ⟨kvs, rfl, ?_⟩
                split at hconf'
                · next hnone =>
                    rw [Option.some.injEq] at hconf'
                    exact Or.inl ⟨hnone, by rw [← hcc, ← hconf']⟩
                · next w hw =>
                    exact Or.inr ⟨w, hw, by rw [← hcc]; exact hconf'⟩
  · cases h

theorem decide_from_final_conf (signals : DetectorSignals)
    (audit : List Citation) (fo : Option JVal) :
    (decide_from_final signals audit fo).1.confidence = 7/10 ∨
    ∃ kvs w, fo = some (JVal.obj kvs) ∧ jlookup kvs "confidence" = some w ∧
      pyFloat w = some ((decide_from_final signals audit fo).1.confidence) := by
  unfold decide_from_final
  cases fo with
  | none => exact Or.inl (fallback_tree_conf signals audit)
  | some v =>
      dsimp only
      split
      · exact Or.inl (fallback_tree_conf signals audit)
      · cases hp : parse_final_out v with
        | none => exact Or.inl (fallback_tree_conf signals audit)
        | some tup =>
            obtain ⟨fc, tags, conf, fdCites, expl⟩ := tup
            rcases parse_final_out_conf v fc tags conf fdCites expl hp with
              ⟨kvs, hv, hcase⟩
            subst hv
            rcases hcase with ⟨_, h710⟩ | ⟨w, hw, hpf⟩
            · exact Or.inl h710
            · exact Or.inr ⟨kvs, w, rfl, hw, hpf⟩

theorem decide_from_final_fallback (signals : DetectorSignals)
    (audit : List Citation) (fo : Option JVal)
    (h : fo = none ∨ ∃ v, fo = some v ∧ output_has_error v = true) :
    (decide_from_final signals audit fo).1 = (fallback_tree signals audit).1 := by
  unfold decide_from_final
  rcases h with rfl | ⟨v, rfl, herr⟩
  · rfl
  · have hc : (!pyTruthy v || output_has_error v) = true := by rw [herr]; simp
    dsimp only
    split
    · rfl
    · next hnc => exact absurd hc hnc

theorem assemble_result_eq (d : String) (p : List (Int × String))
    (s : DetectorSignals) (ic : Int) (gem : List (String × JVal))
    (st : FlowState) (ptr : PromptTree) (c : List Citation)
    (ag : ℚ × List String) (fc : ℚ)
    (hag : compute_llm_agreement ptr gem = Except.ok ag)
    (hfc : final_confidence_of ptr gem = Except.ok fc) :
    assemble_result d p s ic gem st ptr c = Except.ok
      { doc_id := d
        final_category := resolved_final ptr gem
        secondary_tags :=
          if adopt_secondary ptr gem then
            (match jlookup gem "Critical_info" with
             | some (.arr xs) => JVal.arr xs
             | _ => ptr.secondary_tags)
          else ptr.secondary_tags
        confidence := fc
        citations := c
        explanation :=
          if adopt_secondary ptr gem then
            (jlookup gem "Reasoning").getD ptr.explanation
          else ptr.explanation
        page_count := p.length
        image_count := ic
        content_safety :=
          if (jlookup gem "error").isSome then JVal.str "Content is safe for kids"
          else (jlookup gem "Content_safety").getD (.str "Content is safe for kids")
        raw_signals := s
        llm_payload := ⟨st.prompt_errors, ptr, st.outputs, gem,
                        ⟨ag.1, ag.2, "most_restrictive"⟩⟩
        requires_review :=
          decide (fc < 4/5) || s.has_unsafe_pattern ||
          !st.prompt_errors.isEmpty || decide (ag.1 < 7/10) || !ag.2.isEmpty
        dual_llm_agreement := ag.1
        dual_llm_disagreements := if ag.2.isEmpty then none else some ag.2 } := by
  unfold assemble_result
  rw [hag, hfc]

theorem assemble_result_ok_elim (d : String) (p : List (Int × String))
    (s : DetectorSignals) (ic : Int) (gem : List (String × JVal))
    (st : FlowState) (ptr : PromptTree) (c : List Citation)
    (r : ClassificationResult)
    (h : assemble_result d p s ic gem st ptr c = Except.ok r) :
    ∃ ag fc, compute_llm_agreement ptr gem = Except.ok ag ∧
      final_confidence_of ptr gem = Except.ok fc ∧
      r = { doc_id := d
            final_category := resolved_final ptr gem
            secondary_tags :=
              if adopt_secondary ptr gem then
                (match jlookup gem "Critical_info" with
                 | some (.arr xs) => JVal.arr xs
                 | _ => ptr.secondary_tags)
              else ptr.secondary_tags
            confidence := fc
            citations := c
            explanation :=
              if adopt_secondary ptr gem then
                (jlookup gem "Reasoning").getD ptr.explanation
              else ptr.explanation
            page_count := p.length
            image_count := ic
            content_safety :=
              if (jlookup gem "error").isSome then
                JVal.str "Content is safe for kids"
              else (jlookup gem "Content_safety").getD
                (.str "Content is safe for kids")
            raw_signals := s
            llm_payload := ⟨st.prompt_errors, ptr, st.outputs, gem,
                            ⟨ag.1, ag.2, "most_restrictive"⟩⟩
            requires_review :=
              decide (fc < 4/5) || s.has_unsafe_pattern ||
              !st.prompt_errors.isEmpty || decide (ag.1 < 7/10) || !ag.2.isEmpty
            dual_llm_agreement := ag.1
            dual_llm_disagreements :=
              if ag.2.isEmpty then none else some ag.2 } := by
  obtain ⟨ag, fc, hag, hfc⟩ : ∃ ag fc,
      compute_llm_agreement ptr gem = Except.ok ag ∧
      final_confidence_of ptr gem = Except.ok fc := by
    unfold assemble_result at h
    split at h
    · cases h
    · next ag hag =>
        split at h
        · cases h
        · next fc hfc => exact ⟨ag, fc, hag, hfc⟩
  have h2 := assemble_result_eq d p s ic gem st ptr c ag fc hag hfc
  rw [h] at h2
  rw [Except.ok.injEq] at h2
  exact ⟨ag, fc, hag, hfc, h2⟩

theorem compute_llm_agreement_ok (ptr : PromptTree) (gem : List (String × JVal))
    (hg : (jlookup gem "error").isSome = true ∨
          ∀ w, jlookup gem "Confidence" = some w → ∃ q, asNum w = Except.ok q) :
    ∃ ag, compute_llm_agreement ptr gem = Except.ok ag := by
  unfold compute_llm_agreement
  by_cases he : (jlookup gem "error").isSome = true
  · rw [if_pos he]
    exact ⟨_, rfl⟩
  · rw [if_neg he]
    cases hw : jlookup gem "Confidence" with
    | none => exact ⟨_, rfl⟩
    | some w =>
        rcases hg with he' | hq
        · exact absurd he' he
        · obtain ⟨q, hqe⟩ := hq w hw
          rw [Option.getD_some, hqe]
          exact ⟨_, rfl⟩

theorem final_confidence_ok (ptr : PromptTree) (gem : List (String × JVal))
    (hg : (jlookup gem "error").isSome = true ∨
          ∀ w, jlookup gem "Confidence" = some w → ∃ q, asNum w = Except.ok q) :
    ∃ fc, final_confidence_of ptr gem = Except.ok fc := by
  unfold final_confidence_of
  by_cases ha : adopt_secondary ptr gem = true
  · rw [if_pos ha]
    cases hw : jlookup gem "Confidence" with
    | none => exact ⟨_, rfl⟩
    | some w =>
        rcases hg with he | hq
        · unfold adopt_secondary at ha
          rw [he] at ha
          simp at ha
        · obtain ⟨q, hqe⟩ := hq w hw
          exact ⟨q, hqe⟩
  · rw [if_neg ha]
    exact ⟨_, rfl⟩

theorem classify_all_markers (flow : List NodeSpec)
    (gp : String → Option PromptCfg) (tr : String → Except String JVal)
    (gem : List (String × JVal)) (doc : String) (pages : List (Int × String))
    (signals : DetectorSignals) (ic : Int) (imgs : List JVal)
    (hm : ∀ n, n ∈ flow → ∀ v, exec_node gp tr imgs n = some v →
          ∃ m x, v = errMarker m x)
    (hg : (jlookup gem "error").isSome = true ∨
          ∀ w, jlookup gem "Confidence" = some w → ∃ q, asNum w = Except.ok q) :
    ∃ r, classify_document flow gp tr gem doc pages signals ic imgs = Except.ok r ∧
      (r.llm_payload.prompt_flow ≠ [] → r.llm_payload.prompt_errors ≠ []) ∧
      (∀ i w, (i, w) ∈ r.llm_payload.prompt_flow → ∃ m x, w = errMarker m x) ∧
      r.final_category =
        resolve_category_conflict (.str (fallback_decision signals).1)
          (if (jlookup gem "error").isSome then .null
           else (jlookup gem "Sensitivity").getD .null) := by
  have hinv : (∀ i w, (i, w) ∈ (run_flow gp tr signals imgs {} flow).outputs →
        ∃ m x, w = errMarker m x) ∧
      ((run_flow gp tr signals imgs {} flow).outputs ≠ [] →
        (run_flow gp tr signals imgs {} flow).prompt_errors ≠ []) := by
    refine run_flow_preserve
      (fun s => (∀ i w, (i, w) ∈ s.outputs → ∃ m x, w = errMarker m x) ∧
        (s.outputs ≠ [] → s.prompt_errors ≠ [])) gp tr signals imgs flow {}
      ?_ ?_
    · intro st' n hn hP
      constructor
      · intro i w hw
        rcases step_node_outputs gp tr signals imgs st' n i w hw with h1 | ⟨v, hv, hwv⟩
        · exact hP.1 i w h1
        · exact hwv ▸ hm n hn v hv
      · refine step_node_err_preserve gp tr signals imgs st' n ?_ hP.2
        intro v hv
        obtain ⟨m, x, rfl⟩ := hm n hn v hv
        exact errMarker_has_error m x
    · refine ⟨?_, ?_⟩
      · intro i w hw
        simp at hw
      · intro h
        exact absurd rfl h
  have hfb : (decide_from_final signals (run_flow gp tr signals imgs {} flow).audit
        (final_out_of flow (run_flow gp tr signals imgs {} flow))).1 =
      (fallback_tree signals (run_flow gp tr signals imgs {} flow).audit).1 := by
    apply decide_from_final_fallback
    cases hfo : final_out_of flow (run_flow gp tr signals imgs {} flow) with
    | none => exact Or.inl rfl
    | some v =>
        right
        refine ⟨v, rfl, ?_⟩
        obtain ⟨i, hiv⟩ := final_out_mem _ _ v hfo
        obtain ⟨m, x, rfl⟩ := hinv.1 i v hiv
        exact errMarker_has_error m x
  obtain ⟨ag, hag⟩ := compute_llm_agreement_ok
      (decide_from_final signals (run_flow gp tr signals imgs {} flow).audit
        (final_out_of flow (run_flow gp tr signals imgs {} flow))).1 gem hg
  obtain ⟨fc, hfc⟩ := final_confidence_ok
      (decide_from_final signals (run_flow gp tr signals imgs {} flow).audit
        (final_out_of flow (run_flow gp tr signals imgs {} flow))).1 gem hg
  have hc := assemble_result_eq doc pages signals ic gem
      (run_flow gp tr signals imgs {} flow)
      (decide_from_final signals (run_flow gp tr signals imgs {} flow).audit
        (final_out_of flow (run_flow gp tr signals imgs {} flow))).1
      (decide_from_final signals (run_flow gp tr signals imgs {} flow).audit
        (final_out_of flow (run_flow gp tr signals imgs {} flow))).2 ag fc hag hfc
  refine ⟨_, hc, ?_, ?_, ?_⟩
  · intro hne
    exact hinv.2 hne
  · intro i w hw
    exact hinv.1 i w hw
  · show resolved_final
      (decide_from_final signals (run_flow gp tr signals imgs {} flow).audit
        (final_out_of flow (run_flow gp tr signals imgs {} flow))).1 gem = _
    unfold resolved_final
    rw [hfb, fallback_tree_category]

/-- C7: for every classification run that returns, requiresReview is true
if and only if at least one of: final confidence < 0.8, the
hasUnsafePattern detector signal, a recorded prompt-node error, agreement
score < 0.7, or a non-empty disagreement list. -/
theorem classify_document_requires_review (flow : List NodeSpec)
    (gp : String → Option PromptCfg) (tr : String → Except String JVal)
    (gem : List (String × JVal)) (doc : String) (pages : List (Int × String))
    (signals : DetectorSignals) (ic : Int) (imgs : List JVal)
    (r : ClassificationResult)
    (hok : classify_document flow gp tr gem doc pages signals ic imgs = Except.ok r) :
    r.requires_review = true ↔
      (r.confidence < 4/5 ∨ r.raw_signals.has_unsafe_pattern = true ∨
       r.llm_payload.prompt_errors ≠ [] ∨ r.dual_llm_agreement < 7/10 ∨
       r.dual_llm_disagreements ≠ none) := by
  obtain ⟨ag, fc, hag, hfc, hr⟩ := assemble_result_ok_elim doc pages signals ic gem
    (run_flow gp tr signals imgs {} flow)
    (decide_from_final signals (run_flow gp tr signals imgs {} flow).audit
      (final_out_of flow (run_flow gp tr signals imgs {} flow))).1
    (decide_from_final signals (run_flow gp tr signals imgs {} flow).audit
      (final_out_of flow (run_flow gp tr signals imgs {} flow))).2 r hok
  subst hr
  obtain ⟨sc, ds⟩ := ag
  dsimp only
  cases ds <;> (simp; try tauto)

theorem classify_document_requires_review_witness :
    ∃ r, classify_document [] (fun _ => none) (fun _ => Except.error "down")
        [("error", JVal.str "gem down")] "doc7" [] {} 0 [] = Except.ok r ∧
      (r.requires_review = true ↔
        (r.confidence < 4/5 ∨ r.raw_signals.has_unsafe_pattern = true ∨
         r.llm_payload.prompt_errors ≠ [] ∨ r.dual_llm_agreement < 7/10 ∨
         r.dual_llm_disagreements ≠ none)) := by
  refine ⟨_, rfl, ?_⟩
  exact classify_document_requires_review [] (fun _ => none)
    (fun _ => Except.error "down") [("error", JVal.str "gem down")]
    "doc7" [] {} 0 [] _ rfl

theorem final_confidence_cases (ptr : PromptTree) (gem : List (String × JVal))
    (fc : ℚ) (h : final_confidence_of ptr gem = Except.ok fc) :
    fc = ptr.confidence ∨
    ∃ w, jlookup gem "Confidence" = some w ∧ asNum w = Except.ok fc := by
  unfold final_confidence_of at h
  split at h
  · split at h
    · rw [Except.ok.injEq] at h
      exact Or.inl h.symm
    · next w hw => exact Or.inr ⟨w, hw, h⟩
  · rw [Except.ok.injEq] at h
    exact Or.inl h.symm

/-- C4 counterexample: a terminal node reporting confidence 1.5 is passed
through unclamped — the returned confidence is 1.5, outside [0, 1]. -/
theorem classify_document_confidence_counterexample :
    ∃ r, classify_document
        [{ id := "final_decision", prompt := "final_decision", final_node := true }]
        (fun _ => some ⟨"system", "classify"⟩)
        (fun _ => Except.ok (.obj [("final_category", .str "Public"),
                                   ("confidence", .num (3/2))]))
        [("error", JVal.str "boom")] "doc4" [] {} 0 [] = Except.ok r ∧
      r.confidence = 3/2 ∧ ¬(r.confidence ≤ 1) := by
  refine ⟨_, rfl, rfl, ?_⟩
  intro hle
  have h32 : (3/2 : ℚ) ≤ 1 := hle
  norm_num at h32

/-- C4 (amended): classify_document never clamps the confidence; the
returned value is 0.7, the terminal node's parsed confidence, or the
adopted secondary confidence, and therefore lies in [0, 1] exactly when
every supplied confidence value does. -/
theorem classify_document_confidence_bounds (flow : List NodeSpec)
    (gp : String → Option PromptCfg) (tr : String → Except String JVal)
    (gem : List (String × JVal)) (doc : String) (pages : List (Int × String))
    (signals : DetectorSignals) (ic : Int) (imgs : List JVal)
    (r : ClassificationResult)
    (hok : classify_document flow gp tr gem doc pages signals ic imgs = Except.ok r)
    (HT : ∀ id v kvs w q, tr id = Except.ok v → v = JVal.obj kvs →
          jlookup kvs "confidence" = some w → pyFloat w = some q →
          0 ≤ q ∧ q ≤ 1)
    (HG : ∀ w q, jlookup gem "Confidence" = some w → asNum w = Except.ok q →
          0 ≤ q ∧ q ≤ 1) :
    0 ≤ r.confidence ∧ r.confidence ≤ 1 := by
  have hinv : ∀ i w, (i, w) ∈ (run_flow gp tr signals imgs {} flow).outputs →
      (∃ m x, w = errMarker m x) ∨ ∃ id, tr id = Except.ok w := by
    refine run_flow_preserve
      (fun s => ∀ i w, (i, w) ∈ s.outputs →
        (∃ m x, w = errMarker m x) ∨ ∃ id, tr id = Except.ok w)
      gp tr signals imgs flow {} ?_ ?_
    · intro st' n _ hP i w hw
      rcases step_node_outputs gp tr signals imgs st' n i w hw with h1 | ⟨v, hv, hwv⟩
      · exact hP i w h1
      · exact hwv.symm ▸ exec_node_shape gp tr imgs n v hv
    · intro i w hw
      simp at hw
  have hptr : 0 ≤ (decide_from_final signals
        (run_flow gp tr signals imgs {} flow).audit
        (final_out_of flow (run_flow gp tr signals imgs {} flow))).1.confidence ∧
      (decide_from_final signals (run_flow gp tr signals imgs {} flow).audit
        (final_out_of flow (run_flow gp tr signals imgs {} flow))).1.confidence ≤ 1 := by
    rcases decide_from_final_conf signals
        (run_flow gp tr signals imgs {} flow).audit
        (final_out_of flow (run_flow gp tr signals imgs {} flow)) with
      h710 | ⟨kvs, w, hfo, hw, hpf⟩
    · rw [h710]
      norm_num
    · obtain ⟨i, hiv⟩ := final_out_mem flow (run_flow gp tr signals imgs {} flow)
        (JVal.obj kvs) hfo
      rcases hinv i _ hiv with ⟨m, x, hmk⟩ | ⟨id, hid⟩
      · have hnone := errMarker_conf_none m x kvs hmk.symm
        rw [hnone] at hw
        cases hw
      · exact HT id (JVal.obj kvs) kvs w _ hid rfl hw hpf
  obtain ⟨ag, fc, hag, hfc, hr⟩ := assemble_result_ok_elim doc pages signals ic gem
    (run_flow gp tr signals imgs {} flow)
    (decide_from_final signals (run_flow gp tr signals imgs {} flow).audit
      (final_out_of flow (run_flow gp tr signals imgs {} flow))).1
    (decide_from_final signals (run_flow gp tr signals imgs {} flow).audit
      (final_out_of flow (run_flow gp tr signals imgs {} flow))).2 r hok
  subst hr
  dsimp only
  rcases final_confidence_cases _ gem fc hfc with hfp | ⟨w, hw, ha⟩
  · rw [hfp]
    exact hptr
  · exact HG w fc hw ha

theorem classify_document_confidence_bounds_witness :
    ∃ r, classify_document
        [{ id := "final_decision", prompt := "final_decision", final_node := true }]
        (fun _ => some ⟨"system", "classify"⟩)
        (fun _ => Except.ok (.obj [("final_category", .str "Public"),
                                   ("confidence", .num (9/10))]))
        [("error", JVal.str "boom")] "doc4w" [] {} 0 [] = Except.ok r ∧
      0 ≤ r.confidence ∧ r.confidence ≤ 1 := by
  refine ⟨_, rfl, ?_⟩
  refine classify_document_confidence_bounds
    [{ id := "final_decision", prompt := "final_decision", final_node := true }]
    (fun _ => some ⟨"system", "classify"⟩)
    (fun _ => Except.ok (.obj [("final_category", .str "Public"),
                               ("confidence", .num (9/10))]))
    [("error", JVal.str "boom")] "doc4w" [] {} 0 [] _ rfl ?_ ?_
  · intro id v kvs w q htr hv hw hq
    rw [Except.ok.injEq] at htr
    subst htr
    rw [JVal.obj.injEq] at hv
    subst hv
    rw [show jlookup [("final_category", JVal.str "Public"),
          ("confidence", JVal.num (9/10))] "confidence" =
          some (JVal.num (9/10)) from rfl] at hw
    rw [Option.some.injEq] at hw
    subst hw
    rw [show pyFloat (JVal.num (9/10)) = some (9/10) from rfl] at hq
    rw [Option.some.injEq] at hq
    subst hq
    norm_num
  · intro w q hw
    cases hw

/-- C5 counterexample: with one failing text node (id "scan", prompt
"scan_prompt") and a successful secondary verdict of Confidential, the
recorded marker's prompt_node is the prompt name, not the node id, and the
final category is Confidential, not the fallback-ladder category Public. -/
theorem classify_document_transport_counterexample :
    ∃ r, classify_document [{ id := "scan", prompt := "scan_prompt" }]
        (fun _ => some ⟨"system", "scan"⟩) (fun _ => Except.error "boom")
        [("Sensitivity", JVal.str "Confidential"), ("Confidence", JVal.num (9/10))]
        "doc5" [] {} 0 [] = Except.ok r ∧
      jlookup r.llm_payload.prompt_flow "scan" =
        some (errMarker "boom" "scan_prompt") ∧
      errMarker "boom" "scan_prompt" ≠ errMarker "boom" "scan" ∧
      (fallback_decision ({} : DetectorSignals)).1 = "Public" ∧
      r.final_category = JVal.str "Confidential" ∧
      r.final_category ≠ JVal.str "Public" := by
  refine ⟨_, rfl, rfl, ?_, rfl, rfl, ?_⟩
  · simp [errMarker]
  · intro h
    have h2 : JVal.str "Confidential" = JVal.str "Public" := h
    simp at h2

/-- C5 (amended): when every flow node's transport raises (and the
secondary verdict either errored or carries a numeric Confidence), no
exception propagates out of classify_document; every recorded flow output
is an error-marker object (whose prompt_node holds the prompt name for
text nodes and the node id for multimodal nodes), promptErrors is
non-empty whenever any node ran, and the final category is the
fallback-ladder category reconciled most-restrictively with the secondary
verdict (equal to the ladder category whenever the secondary errs or is
not more severe). -/
theorem classify_document_all_transports_raise (flow : List NodeSpec)
    (gp : String → Option PromptCfg) (tr : String → Except String JVal)
    (gem : List (String × JVal)) (doc : String) (pages : List (Int × String))
    (signals : DetectorSignals) (ic : Int) (imgs : List JVal)
    (htr : ∀ id, ∃ e, tr id = Except.error e)
    (hg : (jlookup gem "error").isSome = true ∨
          ∀ w, jlookup gem "Confidence" = some w → ∃ q, asNum w = Except.ok q) :
    ∃ r, classify_document flow gp tr gem doc pages signals ic imgs = Except.ok r ∧
      (r.llm_payload.prompt_flow ≠ [] → r.llm_payload.prompt_errors ≠ []) ∧
      (∀ i w, (i, w) ∈ r.llm_payload.prompt_flow → ∃ m x, w = errMarker m x) ∧
      r.final_category =
        resolve_category_conflict (.str (fallback_decision signals).1)
          (if (jlookup gem "error").isSome then .null
           else (jlookup gem "Sensitivity").getD .null) :=
  classify_all_markers flow gp tr gem doc pages signals ic imgs
    (fun n _ v hv => exec_node_marker_of_raise gp tr imgs n htr v hv) hg

theorem classify_document_all_transports_raise_witness :
    ∃ r, classify_document [{ id := "scan", prompt := "scan_prompt" }]
        (fun _ => some ⟨"system", "scan"⟩) (fun _ => Except.error "boom")
        [("error", JVal.str "gem down")] "doc5w" [] {} 0 [] = Except.ok r ∧
      (r.llm_payload.prompt_flow ≠ [] → r.llm_payload.prompt_errors ≠ []) ∧
      (∀ i w, (i, w) ∈ r.llm_payload.prompt_flow → ∃ m x, w = errMarker m x) ∧
      r.final_category =
        resolve_category_conflict
          (.str (fallback_decision ({} : DetectorSignals)).1)
          (if (jlookup [("error", JVal.str "gem down")] "error").isSome then .null
           else (jlookup [("error", JVal.str "gem down")] "Sensitivity").getD .null) :=
  classify_document_all_transports_raise
    [{ id := "scan", prompt := "scan_prompt" }]
    (fun _ => some ⟨"system", "scan"⟩) (fun _ => Except.error "boom")
    [("error", JVal.str "gem down")] "doc5w" [] {} 0 []
    (fun _ => ⟨"boom", rfl⟩) (Or.inl rfl)

/-- C6 counterexample: a flow node referencing an unknown prompt name does
NOT make classify_document raise — the KeyError is caught by the per-node
handler, recorded as an error marker under the node id, and the run
returns normally. -/
theorem classify_document_unknown_prompt_counterexample :
    ∃ r, classify_document [{ id := "n1", prompt := "nope" }]
        (fun _ => none) (fun _ => Except.error "x")
        [("error", JVal.str "gem down")] "doc6" [] {} 0 [] = Except.ok r ∧
      r.llm_payload.prompt_errors = ["n1"] ∧
      jlookup r.llm_payload.prompt_flow "n1" = some (errMarker "'nope'" "n1") := by
  exact ⟨_, rfl, rfl, rfl⟩

/-- C6 (amended): an unknown prompt name is a failure the node loop
absorbs, exactly like a transport failure: for every flow whose prompt
names are all unknown (and an erroring or numeric-confidence secondary),
classify_document returns a result rather than raising, every recorded
output is an error marker, and promptErrors is non-empty whenever any
node ran.  Only failures outside the per-node try (for example a
malformed flow from getPromptFlow itself) can propagate. -/
theorem classify_document_unknown_prompt_absorbed (flow : List NodeSpec)
    (gp : String → Option PromptCfg) (tr : String → Except String JVal)
    (gem : List (String × JVal)) (doc : String) (pages : List (Int × String))
    (signals : DetectorSignals) (ic : Int) (imgs : List JVal)
    (hunknown : ∀ n, n ∈ flow → gp n.prompt = none)
    (hg : (jlookup gem "error").isSome = true ∨
          ∀ w, jlookup gem "Confidence" = some w → ∃ q, asNum w = Except.ok q) :
    ∃ r, classify_document flow gp tr gem doc pages signals ic imgs = Except.ok r ∧
      (r.llm_payload.prompt_flow ≠ [] → r.llm_payload.prompt_errors ≠ []) ∧
      (∀ i w, (i, w) ∈ r.llm_payload.prompt_flow → ∃ m x, w = errMarker m x) := by
  obtain ⟨r, hok, herr, hmk, _⟩ := classify_all_markers flow gp tr gem doc pages
    signals ic imgs
    (fun n hn v hv => exec_node_marker_of_unknown gp tr imgs n (hunknown n hn) v hv)
    hg
  exact ⟨r, hok, herr, hmk⟩

theorem classify_document_unknown_prompt_absorbed_witness :
    ∃ r, classify_document [{ id := "n1", prompt := "nope" }]
        (fun _ => none) (fun _ => Except.error "x")
        [("error", JVal.str "gem down")] "doc6w" [] {} 0 [] = Except.ok r ∧
      (r.llm_payload.prompt_flow ≠ [] → r.llm_payload.prompt_errors ≠ []) ∧
      (∀ i w, (i, w) ∈ r.llm_payload.prompt_flow → ∃ m x, w = errMarker m x) :=
  classify_document_unknown_prompt_absorbed
    [{ id := "n1", prompt := "nope" }] (fun _ => none)
    (fun _ => Except.error "x") [("error", JVal.str "gem down")]
    "doc6w" [] {} 0 [] (fun _ _ => rfl) (Or.inl rfl)

theorem validCat_truthy (g : String) (h : g ∈ validCats) :
    pyTruthy (.str g) = true := by
  simp only [validCats, List.mem_cons, List.not_mem_nil, or_false] at h
  rcases h with rfl | rfl | rfl | rfl <;> rfl

theorem validCat_priority_lt (a b : String) (ha : a ∈ validCats)
    (hb : b ∈ validCats) (hne : a ≠ b)
    (hle : priority (.str b) ≤ priority (.str a)) :
    priority (.str b) < priority (.str a) := by
  simp only [validCats, List.mem_cons, List.not_mem_nil, or_false] at ha hb
  rcases ha with rfl | rfl | rfl | rfl <;> rcases hb with rfl | rfl | rfl | rfl <;>
    first
      | exact absurd rfl hne
      | exact absurd hle (by decide)
      | decide

theorem resolve_self (c : JVal) : resolve_category_conflict c c = c := by
  unfold resolve_category_conflict
  split
  · rfl
  · rw [if_pos (le_refl _)]

/-- C10: with a well-formed secondary verdict, whenever the secondary has
no error key and its Sensitivity equals the conflict-resolved final
category — including every tie between primary and secondary —
classify_document returns the secondary's Confidence, Reasoning and
Critical_info list as the result's confidence, explanation and
secondary_tags; the primary verdict's values are retained only when the
primary category is strictly more severe than the secondary's, or the
secondary errored. -/
theorem classify_document_secondary_adoption (flow : List NodeSpec)
    (gp : String → Option PromptCfg) (tr : String → Except String JVal)
    (gem : List (String × JVal)) (doc : String) (pages : List (Int × String))
    (signals : DetectorSignals) (ic : Int) (imgs : List JVal)
    (r : ClassificationResult) (g pcat : String) (q : ℚ) (rv : JVal)
    (ts : List JVal)
    (hok : classify_document flow gp tr gem doc pages signals ic imgs = Except.ok r)
    (hsen : jlookup gem "Sensitivity" = some (.str g))
    (hgv : g ∈ validCats)
    (hpt : r.llm_payload.prompt_tree.final_category = .str pcat)
    (hpv : pcat ∈ validCats)
    (hconf : jlookup gem "Confidence" = some (.num q))
    (hreas : jlookup gem "Reasoning" = some rv)
    (hci : jlookup gem "Critical_info" = some (.arr ts)) :
    (jlookup gem "error" = none → r.final_category = .str g →
      r.confidence = q ∧ r.explanation = rv ∧ r.secondary_tags = .arr ts) ∧
    (jlookup gem "error" = none → pcat = g → r.final_category = .str g) ∧
    (jlookup gem "error" = none → r.final_category ≠ .str g →
      r.confidence = r.llm_payload.prompt_tree.confidence ∧
      r.explanation = r.llm_payload.prompt_tree.explanation ∧
      r.secondary_tags = r.llm_payload.prompt_tree.secondary_tags ∧
      priority (.str g) < priority (.str pcat)) ∧
    ((jlookup gem "error").isSome = true →
      r.confidence = r.llm_payload.prompt_tree.confidence ∧
      r.explanation = r.llm_payload.prompt_tree.explanation ∧
      r.secondary_tags = r.llm_payload.prompt_tree.secondary_tags) := by
  obtain ⟨ag, fc, hag, hfc, hr⟩ := assemble_result_ok_elim doc pages signals ic gem
    (run_flow gp tr signals imgs {} flow)
    (decide_from_final signals (run_flow gp tr signals imgs {} flow).audit
      (final_out_of flow (run_flow gp tr signals imgs {} flow))).1
    (decide_from_final signals (run_flow gp tr signals imgs {} flow).audit
      (final_out_of flow (run_flow gp tr signals imgs {} flow))).2 r hok
  subst hr
  set P := (decide_from_final signals (run_flow gp tr signals imgs {} flow).audit
    (final_out_of flow (run_flow gp tr signals imgs {} flow))).1 with hPdef
  have hptc : P.final_category = .str pcat := hpt
  have hsens' : (jlookup gem "Sensitivity").getD JVal.null = .str g := by
    rw [hsen]; rfl
  refine ⟨?_, ?_, ?_, ?_⟩
  · intro herrn hfin
    have herrb : (jlookup gem "error").isSome = false := by rw [herrn]; rfl
    have hres : resolved_final P gem = .str g := hfin
    have hadopt : adopt_secondary P gem = true := by
      unfold adopt_secondary
      rw [hres, hsens', herrb, jeq_str_self]
      rfl
    refine ⟨?_, ?_, ?_⟩
    · unfold final_confidence_of at hfc
      rw [if_pos hadopt, hconf] at hfc
      have h2 : Except.ok (ε := String) q = Except.ok fc := hfc
      rw [Except.ok.injEq] at h2
      exact h2.symm
    · show (if adopt_secondary P gem then (jlookup gem "Reasoning").getD P.explanation
            else P.explanation) = rv
      rw [if_pos hadopt, hreas]
      rfl
    · show (if adopt_secondary P gem then
              (match jlookup gem "Critical_info" with
               | some (.arr xs) => JVal.arr xs
               | _ => P.secondary_tags)
            else P.secondary_tags) = JVal.arr ts
      rw [if_pos hadopt, hci]
  · intro herrn hpg
    have herrb : (jlookup gem "error").isSome = false := by rw [herrn]; rfl
    show resolved_final P gem = .str g
    unfold resolved_final
    rw [herrb]
    simp only [Bool.false_eq_true, if_false]
    rw [hsens', hptc, hpg]
    exact resolve_self _
  · intro herrn hne
    have herrb : (jlookup gem "error").isSome = false := by rw [herrn]; rfl
    have hne' : resolved_final P gem ≠ .str g := hne
    have hres : resolved_final P gem =
        resolve_category_conflict (.str pcat) (.str g) := by
      unfold resolved_final
      rw [herrb]
      simp only [Bool.false_eq_true, if_false]
      rw [hsens', hptc]
    by_cases hle : priority (.str g) ≤ priority (.str pcat)
    · have hrespc : resolved_final P gem = .str pcat := by
        rw [hres]
        unfold resolve_category_conflict
        rw [validCat_truthy g hgv]
        simp only [Bool.not_true, Bool.false_eq_true, if_false]
        rw [if_pos hle]
      have hpcg : pcat ≠ g := by
        intro he
        apply hne'
        rw [hrespc, he]
      have hjf : jeq (.str pcat) (.str g) = false := by
        simp [jeq]
        exact hpcg
      have hadoptf : adopt_secondary P gem = false := by
        unfold adopt_secondary
        rw [hrespc, hsens', hjf]
        rfl
      refine ⟨?_, ?_, ?_, ?_⟩
      · unfold final_confidence_of at hfc
        rw [if_neg (by rw [hadoptf]; exact Bool.false_ne_true)] at hfc
        have h2 : Except.ok (ε := String) P.confidence = Except.ok fc := hfc
        rw [Except.ok.injEq] at h2
        exact h2.symm
      · show (if adopt_secondary P gem then (jlookup gem "Reasoning").getD P.explanation
              else P.explanation) = P.explanation
        rw [if_neg (by rw [hadoptf]; exact Bool.false_ne_true)]
      · show (if adopt_secondary P gem then
                (match jlookup gem "Critical_info" with
                 | some (.arr xs) => JVal.arr xs
                 | _ => P.secondary_tags)
              else P.secondary_tags) = P.secondary_tags
        rw [if_neg (by rw [hadoptf]; exact Bool.false_ne_true)]
      · exact validCat_priority_lt pcat g hpv hgv hpcg hle
    · exfalso
      apply hne'
      rw [hres]
      unfold resolve_category_conflict
      rw [validCat_truthy g hgv]
      simp only [Bool.not_true, Bool.false_eq_true, if_false]
      rw [if_neg hle]
  · intro herrt
    have hadoptf : adopt_secondary P gem = false := by
      unfold adopt_secondary
      rw [herrt]
      simp
    refine ⟨?_, ?_, ?_⟩
    · unfold final_confidence_of at hfc
      rw [if_neg (by rw [hadoptf]; exact Bool.false_ne_true)] at hfc
      have h2 : Except.ok (ε := String) P.confidence = Except.ok fc := hfc
      rw [Except.ok.injEq] at h2
      exact h2.symm
    · show (if adopt_secondary P gem then (jlookup gem "Reasoning").getD P.explanation
            else P.explanation) = P.explanation
      rw [if_neg (by rw [hadoptf]; exact Bool.false_ne_true)]
    · show (if adopt_secondary P gem then
              (match jlookup gem "Critical_info" with
               | some (.arr xs) => JVal.arr xs
               | _ => P.secondary_tags)
            else P.secondary_tags) = P.secondary_tags
      rw [if_neg (by rw [hadoptf]; exact Bool.false_ne_true)]

theorem classify_document_secondary_adoption_witness :
    ∃ r, classify_document [] (fun _ => none) (fun _ => Except.error "e")
        [("Sensitivity", JVal.str "Confidential"),
         ("Confidence", JVal.num (19/20)),
         ("Reasoning", JVal.str "internal matters"),
         ("Critical_info", JVal.arr [JVal.str "memo"])]
        "doc10" [] {} 0 [] = Except.ok r ∧
      ((jlookup [("Sensitivity", JVal.str "Confidential"),
          ("Confidence", JVal.num (19/20)),
          ("Reasoning", JVal.str "internal matters"),
          ("Critical_info", JVal.arr [JVal.str "memo"])] "error" = none →
        r.final_category = .str "Confidential" →
        r.confidence = 19/20 ∧ r.explanation = JVal.str "internal matters" ∧
        r.secondary_tags = JVal.arr [JVal.str "memo"]) ∧
       (jlookup [("Sensitivity", JVal.str "Confidential"),
          ("Confidence", JVal.num (19/20)),
          ("Reasoning", JVal.str "internal matters"),
          ("Critical_info", JVal.arr [JVal.str "memo"])] "error" = none →
        "Public" = "Confidential" → r.final_category = .str "Confidential") ∧
       (jlookup [("Sensitivity", JVal.str "Confidential"),
          ("Confidence", JVal.num (19/20)),
          ("Reasoning", JVal.str "internal matters"),
          ("Critical_info", JVal.arr [JVal.str "memo"])] "error" = none →
        r.final_category ≠ .str "Confidential" →
        r.confidence = r.llm_payload.prompt_tree.confidence ∧
        r.explanation = r.llm_payload.prompt_tree.explanation ∧
        r.secondary_tags = r.llm_payload.prompt_tree.secondary_tags ∧
        priority (.str "Confidential") < priority (.str "Public")) ∧
       ((jlookup [("Sensitivity", JVal.str "Confidential"),
           ("Confidence", JVal.num (19/20)),
           ("Reasoning", JVal.str "internal matters"),
           ("Critical_info", JVal.arr [JVal.str "memo"])] "error").isSome = true →
        r.confidence = r.llm_payload.prompt_tree.confidence ∧
        r.explanation = r.llm_payload.prompt_tree.explanation ∧
        r.secondary_tags = r.llm_payload.prompt_tree.secondary_tags)) := by
  refine ⟨_, rfl, ?_⟩
  refine classify_document_secondary_adoption [] (fun _ => none)
    (fun _ => Except.error "e")
    [("Sensitivity", JVal.str "Confidential"),
     ("Confidence", JVal.num (19/20)),
     ("Reasoning", JVal.str "internal matters"),
     ("Critical_info", JVal.arr [JVal.str "memo"])]
    "doc10" [] {} 0 [] _ "Confidential" "Public" (19/20)
    (JVal.str "internal matters") [JVal.str "memo"]
    rfl rfl (by simp [validCats]) rfl (by simp [validCats]) rfl rfl rfl
